import Mathlib

/-!
Shallow embedding of the adaptive Snake game core (TypeScript sources:
`engine/GameStateManager.ts`, `engine/FoodManager.js`, `engine/CollisionDetector.js`,
`ai/PlayerProfiler.ts`, `ai/AIGameDirector.ts`) together with proofs about the
spec's claims on it.

Modelling conventions:
* JS `number` values that stay integral (grid coordinates, scores, counters)
  are `ℤ`/`ℕ`; genuinely fractional quantities (speed, stress, rates, times)
  are `ℚ`.  `Math.floor` on a `ℚ` is `⌊·⌋` (`Int.floor`).
* `Math.random()` draws are threaded explicitly as a parameter `r : ℚ` with
  `0 ≤ r < 1` assumed where the source relies on it.
* A thrown JS exception is modelled by `Option`/`none` on the function's
  result (the sources under consideration never catch these).
* Mutation of `this.gameState` becomes explicit state passing: each mutator
  takes the current `GameState` and returns the updated one (plus its boolean
  result where the source returns one).
-/

/-- Grid direction (`Direction` enum in `GameTypes.ts`). -/
inductive Direction where
  | UP
  | DOWN
  | LEFT
  | RIGHT
deriving DecidableEq, Repr

/-- `oppositeDirections` table from `GameStateManager.changeDirection`. -/
def oppositeDirection : Direction → Direction
  | .UP => .DOWN
  | .DOWN => .UP
  | .LEFT => .RIGHT
  | .RIGHT => .LEFT

/-- Grid cell (`Position` in `GameTypes.ts`); snake heads may leave the grid,
so coordinates are integers. -/
structure Position where
  x : ℤ
  y : ℤ
deriving DecidableEq, Repr

/-- `SnakeSegment` from `GameTypes.ts`. -/
structure SnakeSegment where
  position : Position
  direction : Direction
  age : ℕ
deriving DecidableEq, Repr

/-- Game status union type from `GameTypes.ts`. -/
inductive GameStatus where
  | INIT
  | PLAYING
  | PAUSED
  | GAME_OVER
deriving DecidableEq, Repr

/-- `gridSize` record. -/
structure GridSize where
  width : ℕ
  height : ℕ
deriving DecidableEq, Repr

/-- `GameState` from `GameTypes.ts`. -/
structure GameState where
  snake : List SnakeSegment
  food : Position
  score : ℤ
  gameStatus : GameStatus
  speed : ℚ
  gridSize : GridSize
  gameTime : ℚ
deriving DecidableEq, Repr

/-- Placeholder segment used to totalise `snake[0]` accesses; the sources
only ever read the head of a nonempty snake (an empty snake would make the
JS code throw), and every theorem below that depends on the head carries a
nonemptiness hypothesis. -/
def defaultSegment : SnakeSegment := ⟨⟨0, 0⟩, .UP, 0⟩

/-- `PlayerInput` from `GameTypes.ts`. -/
structure PlayerInput where
  direction : Direction
  timestamp : ℚ
  inputLatency : ℚ
deriving DecidableEq, Repr

/-! ## CollisionDetector (static, pure) -/

/-- `CollisionDetector.wouldCollideWithSnake`. -/
def wouldCollideWithSnake (position : Position) (snake : List SnakeSegment) : Bool :=
  snake.any fun segment =>
    decide (segment.position.x = position.x) && decide (segment.position.y = position.y)

/-- `CollisionDetector.isPositionValid` (grid-bounds check). -/
def isPositionValid (position : Position) (gridSize : GridSize) : Bool :=
  decide (0 ≤ position.x) && decide (position.x < (gridSize.width : ℤ)) &&
  decide (0 ≤ position.y) && decide (position.y < (gridSize.height : ℤ))

/-- `CollisionDetector.calculateDistance` (Manhattan distance). -/
def calculateDistance (pos1 pos2 : Position) : ℤ :=
  |pos1.x - pos2.x| + |pos1.y - pos2.y|

/-! ## FoodManager (static, pure plus explicit random draw) -/

/-- Food-placement difficulty band. -/
inductive Difficulty where
  | easy
  | medium
  | hard
deriving DecidableEq, Repr

/-- `FoodManager.calculateScoreIncrease`: base 10, length bonus
`⌊len/10⌋·5`, speed bonus `⌊(speed−1)·5⌋`.  Note the source calls this on
the state whose snake has already been grown by the new head. -/
def calculateScoreIncrease (gameState : GameState) : ℤ :=
  let baseScore : ℤ := 10
  let lengthBonus : ℤ := (gameState.snake.length / 10 : ℕ) * 5
  let speedBonus : ℤ := ⌊(gameState.speed - 1) * 5⌋
  baseScore + lengthBonus + speedBonus

/-- `FoodManager.getAllValidPositions`: row-major (x outer, y inner) scan of
the grid collecting cells not occupied by the snake. -/
def getAllValidPositions (gameState : GameState) : List Position :=
  (List.range gameState.gridSize.width).flatMap fun (x : ℕ) =>
    (List.range gameState.gridSize.height).filterMap fun (y : ℕ) =>
      let position : Position := ⟨(x : ℤ), (y : ℤ)⟩
      if wouldCollideWithSnake position gameState.snake then none else some position

/-- Stable insertion of an element into a list sorted by the `ℤ`-valued key
`key`: the new element goes after all earlier elements with a key `< ` its
own and before later elements with a key `≥` its own. -/
def insertByKey {α : Type} (key : α → ℤ) (a : α) : List α → List α
  | [] => [a]
  | b :: l => if key b < key a then b :: insertByKey key a l else a :: b :: l

/-- Stable sort by an `ℤ`-valued key.  Models the JS
`positionsWithDistance.sort((a,b) => a.distance - b.distance)`: `Array.sort`
is stable (ES2019), and a stable comparison sort's output is determined by
the comparator, so insertion sort reproduces it exactly. -/
def sortByKey {α : Type} (key : α → ℤ) : List α → List α
  | [] => []
  | a :: l => insertByKey key a (sortByKey key l)

/-- `FoodManager.selectPositionByDifficulty`: sort the valid positions by
Manhattan distance from the head, then pick a random index from the closest
30 % (easy), the middle 40 % (medium) or the farthest 30 % (hard).
`r` is the `Math.random()` draw. -/
def selectPositionByDifficulty (validPositions : List Position) (snakeHead : Position)
    (difficulty : Difficulty) (r : ℚ) : Position :=
  let positionsWithDistance := validPositions.map fun pos =>
    (pos, calculateDistance snakeHead pos)
  let sorted := sortByKey (fun pr => pr.2) positionsWithDistance
  let totalPositions : ℕ := sorted.length
  let selectedIndex : ℕ :=
    match difficulty with
    | .easy => (⌊r * max 1 ((totalPositions : ℚ) * (3/10))⌋).toNat
    | .medium =>
        let middleStart : ℕ := (⌊(totalPositions : ℚ) * (3/10)⌋).toNat
        let middleRange : ℚ := max 1 ((totalPositions : ℚ) * (4/10))
        middleStart + (⌊r * middleRange⌋).toNat
    | .hard =>
        let farStart : ℕ := (⌊(totalPositions : ℚ) * (7/10)⌋).toNat
        farStart + (⌊r * ((totalPositions : ℚ) - (farStart : ℚ))⌋).toNat
  (sorted.getD selectedIndex (⟨0, 0⟩, 0)).1

/-- `FoodManager.generateOptimalFoodPosition`.  `none` models the thrown
`'No valid positions available for food placement'` error; otherwise a
uniformly random valid cell (no difficulty) or a difficulty-banded cell. -/
def generateOptimalFoodPosition (gameState : GameState) (aiPreference : Option Difficulty)
    (r : ℚ) : Option Position :=
  let head := gameState.snake.headD defaultSegment
  let validPositions := getAllValidPositions gameState
  if validPositions.isEmpty then
    none
  else
    match aiPreference with
    | some difficulty =>
        some (selectPositionByDifficulty validPositions head.position difficulty r)
    | none =>
        some (validPositions.getD (⌊r * (validPositions.length : ℚ)⌋).toNat ⟨0, 0⟩)

/-- `FoodConsumptionResult` from `FoodManager.ts`. -/
structure FoodConsumptionResult where
  consumed : Bool
  scoreIncrease : ℤ
  newFoodPosition : Option Position
deriving DecidableEq, Repr

/-- `FoodManager.checkFoodConsumption`: consumed iff the head sits on the
food; on consumption the score increase and a fresh (random, default
placement) food position are computed.  `none` propagates the
no-valid-position error thrown inside `generateOptimalFoodPosition`. -/
def checkFoodConsumption (gameState : GameState) (r : ℚ) : Option FoodConsumptionResult :=
  let head := gameState.snake.headD defaultSegment
  let foodConsumed :=
    decide (head.position.x = gameState.food.x) && decide (head.position.y = gameState.food.y)
  if foodConsumed then
    let scoreIncrease := calculateScoreIncrease gameState
    (generateOptimalFoodPosition gameState none r).map fun newFoodPosition =>
      ⟨true, scoreIncrease, some newFoodPosition⟩
  else
    some ⟨false, 0, none⟩

/-! ## GameStateManager -/

/-- `GameStateManager.GRID_WIDTH`. -/
def GRID_WIDTH : ℕ := 20

/-- `GameStateManager.GRID_HEIGHT`. -/
def GRID_HEIGHT : ℕ := 20

/-- `GameStateManager.INITIAL_SNAKE_LENGTH`. -/
def INITIAL_SNAKE_LENGTH : ℕ := 3

/-- `GameStateManager.createInitialState`.  The random food draw of
`generateRandomFoodPosition` (a rejection loop producing an in-grid cell not
on the snake) is threaded as the parameter `foodPos`; reachability
constructors restrict it exactly as the loop does. -/
def createInitialState (foodPos : Position) : GameState :=
  let snake : List SnakeSegment :=
    (List.range INITIAL_SNAKE_LENGTH).map fun (i : ℕ) => ⟨⟨10 - (i : ℤ), 10⟩, .RIGHT, i⟩
  { snake := snake
    food := foodPos
    score := 0
    gameStatus := .INIT
    speed := 1
    gridSize := ⟨GRID_WIDTH, GRID_HEIGHT⟩
    gameTime := 0 }

/-- `GameStateManager.isValidTransition` table. -/
def isValidTransition (fromStatus toStatus : GameStatus) : Bool :=
  match fromStatus with
  | .INIT => toStatus = .PLAYING
  | .PLAYING => toStatus = .PAUSED || toStatus = .GAME_OVER
  | .PAUSED => toStatus = .PLAYING || toStatus = .GAME_OVER
  | .GAME_OVER => toStatus = .INIT

/-- `GameStateManager.transitionTo`: validated status change, boolean
success result, no-op on invalid transition. -/
def transitionTo (gameState : GameState) (newStatus : GameStatus) : Bool × GameState :=
  if isValidTransition gameState.gameStatus newStatus then
    (true, { gameState with gameStatus := newStatus })
  else
    (false, gameState)

/-- `GameStateManager.startGame` (INIT → PLAYING). -/
def startGame (gameState : GameState) : Bool × GameState :=
  if gameState.gameStatus ≠ .INIT then (false, gameState)
  else transitionTo gameState .PLAYING

/-- `GameStateManager.pauseGame` (PLAYING → PAUSED). -/
def pauseGame (gameState : GameState) : Bool × GameState :=
  if gameState.gameStatus ≠ .PLAYING then (false, gameState)
  else transitionTo gameState .PAUSED

/-- `GameStateManager.resumeGame` (PAUSED → PLAYING). -/
def resumeGame (gameState : GameState) : Bool × GameState :=
  if gameState.gameStatus ≠ .PAUSED then (false, gameState)
  else transitionTo gameState .PLAYING

/-- `GameStateManager.endGame` (validated transition to GAME_OVER). -/
def endGame (gameState : GameState) : Bool × GameState :=
  transitionTo gameState .GAME_OVER

/-- `GameStateManager.resetGame` (GAME_OVER → INIT, rebuilding the initial
state; `foodPos` is the fresh random food draw of `createInitialState`). -/
def resetGame (gameState : GameState) (foodPos : Position) : Bool × GameState :=
  if (transitionTo gameState .INIT).1 then (true, createInitialState foodPos)
  else (false, gameState)

/-- `GameStateManager.getNextPosition`. -/
def getNextPosition (position : Position) (direction : Direction) : Position :=
  match direction with
  | .UP => { position with y := position.y - 1 }
  | .DOWN => { position with y := position.y + 1 }
  | .LEFT => { position with x := position.x - 1 }
  | .RIGHT => { position with x := position.x + 1 }

/-- The new head segment built at the top of `moveSnake`. -/
def nextHead (head : SnakeSegment) : SnakeSegment :=
  ⟨getNextPosition head.position head.direction, head.direction, 0⟩

/-- The `snake.forEach((segment, index) => segment.age = index)` pass at the
end of `moveSnake`, written with an explicit running index. -/
def updateAges (i : ℕ) : List SnakeSegment → List SnakeSegment
  | [] => []
  | s :: l => { s with age := i } :: updateAges (i + 1) l

/-- `GameStateManager.moveSnake`.  `cb` is the optional `onFoodConsumed`
callback field, `r` the `Math.random()` draw used by the default food
placement.  `none` models the exception propagating out of
`checkFoodConsumption` when no valid food cell remains. -/
def moveSnake (gameState : GameState) (cb : Option (GameState → Position)) (r : ℚ) :
    Option GameState :=
  if gameState.gameStatus ≠ .PLAYING then some gameState
  else
    match gameState.snake with
    | [] => some gameState
    | head :: rest =>
      let snake1 := nextHead head :: head :: rest
      let gs1 := { gameState with snake := snake1 }
      match checkFoodConsumption gs1 r with
      | none => none
      | some consumptionResult =>
        let gs2 :=
          if consumptionResult.consumed then
            let gsScored := { gs1 with score := gs1.score + consumptionResult.scoreIncrease }
            match cb with
            | some onFoodConsumed => { gsScored with food := onFoodConsumed gsScored }
            | none =>
              match consumptionResult.newFoodPosition with
              | some p => { gsScored with food := p }
              | none => gsScored
          else
            { gs1 with snake := snake1.dropLast }
        some { gs2 with snake := updateAges 0 gs2.snake }

/-- `GameStateManager.changeDirection`: rejected unless PLAYING and not a
180° turn; otherwise the head's direction is overwritten in place. -/
def changeDirection (gameState : GameState) (newDirection : Direction) : Bool × GameState :=
  if gameState.gameStatus ≠ .PLAYING then (false, gameState)
  else
    match gameState.snake with
    | [] => (false, gameState)
    | head :: rest =>
      if oppositeDirection head.direction = newDirection then (false, gameState)
      else (true, { gameState with snake := { head with direction := newDirection } :: rest })

/-- `GameStateManager.setSpeed`: clamp to `[0.1, 5.0]`. -/
def setSpeed (gameState : GameState) (speed : ℚ) : GameState :=
  { gameState with speed := max (1/10) (min 5 speed) }

/-- `GameStateManager.spawnFoodAt`: rejected if the position overlaps the
snake or is out of the (constant 20×20) grid. -/
def spawnFoodAt (gameState : GameState) (position : Position) : Bool × GameState :=
  let isOccupied := gameState.snake.any fun segment =>
    decide (segment.position.x = position.x) && decide (segment.position.y = position.y)
  if isOccupied || decide (position.x < 0) || decide ((GRID_WIDTH : ℤ) ≤ position.x) ||
      decide (position.y < 0) || decide ((GRID_HEIGHT : ℤ) ≤ position.y) then
    (false, gameState)
  else
    (true, { gameState with food := position })

/-! ## PlayerProfiler -/

/-- Entry of `collisionHistory`. -/
structure CollisionRecord where
  timestamp : ℚ
  ctype : String
  position : Position
deriving DecidableEq, Repr

/-- Entry of `decisionPoints`. -/
structure DecisionPoint where
  timestamp : ℚ
  options : ℕ
  choice : Direction
deriving DecidableEq, Repr

/-- Entry of `foodCollectionHistory`. -/
structure FoodCollectionRecord where
  timestamp : ℚ
  efficiency : ℚ
deriving DecidableEq, Repr

/-- `PlayerProfiler` instance state: its public profile fields plus the
private `behaviorMetrics` record and rolling histories.  `performance.now()`
timestamps are threaded as explicit `now` parameters (the spec's injected
clock view of the same code). -/
structure Profiler where
  reactionTimes : List ℚ
  errorFrequency : ℚ
  riskTolerance : ℚ
  skillProgression : ℚ
  sessionStartTime : ℚ
  inputLatency : List ℚ
  movementPatterns : List Direction
  collisionNearMisses : ℕ
  foodCollectionEfficiency : ℚ
  movementHistory : List Direction
  collisionHistory : List CollisionRecord
  foodCollectionHistory : List FoodCollectionRecord
  decisionPoints : List DecisionPoint
deriving DecidableEq, Repr

/-- Constructor state of `PlayerProfiler` (empty histories, default
tolerances). -/
def initialProfiler (now : ℚ) : Profiler :=
  { reactionTimes := []
    errorFrequency := 0
    riskTolerance := 1/2
    skillProgression := 0
    sessionStartTime := now
    inputLatency := []
    movementPatterns := []
    collisionNearMisses := 0
    foodCollectionEfficiency := 0
    movementHistory := []
    collisionHistory := []
    foodCollectionHistory := []
    decisionPoints := [] }

/-- `Array.slice(-n)`: the last `n` elements (whole list when shorter). -/
def lastN {α : Type} (n : ℕ) (l : List α) : List α := l.drop (l.length - n)

/-- `PlayerProfiler.isValidPosition` (bounds plus snake overlap). -/
def isValidPositionP (position : Position) (gameState : GameState) : Bool :=
  isPositionValid position gameState.gridSize &&
    !(gameState.snake.any fun segment =>
      decide (segment.position.x = position.x) && decide (segment.position.y = position.y))

/-- `PlayerProfiler.getDistanceToWall`.  (`PlayerProfiler.getNextPosition`
is an identical private copy of `GameStateManager.getNextPosition`; the
shared `getNextPosition` above stands for both.) -/
def getDistanceToWall (position : Position) (gridSize : GridSize) : ℤ :=
  min (min position.x position.y)
    (min ((gridSize.width : ℤ) - 1 - position.x) ((gridSize.height : ℤ) - 1 - position.y))

/-- `PlayerProfiler.getDistanceToSnakeBody`: minimum Manhattan distance to a
body segment (head excluded), `10` when there is no body (`Infinity` case). -/
def getDistanceToSnakeBody (position : Position) (snake : List SnakeSegment) : ℤ :=
  let distances := (snake.drop 1).map fun segment =>
    |position.x - segment.position.x| + |position.y - segment.position.y|
  match distances with
  | [] => 10
  | d :: ds => ds.foldl min d

/-- `PlayerProfiler.countEscapeRoutes`. -/
def countEscapeRoutes (position : Position) (gameState : GameState) : ℕ :=
  ([Direction.UP, Direction.DOWN, Direction.LEFT, Direction.RIGHT].filter fun direction =>
    isValidPositionP (getNextPosition position direction) gameState).length

/-- `PlayerProfiler.getAvailableMoves`. -/
def getAvailableMoves (gameState : GameState) : List Direction :=
  let head := gameState.snake.headD defaultSegment
  [Direction.UP, Direction.DOWN, Direction.LEFT, Direction.RIGHT].filter fun direction =>
    isValidPositionP (getNextPosition head.position direction) gameState

/-- `PlayerProfiler.calculateDirectionRisk`: wall proximity, body proximity
and escape-route contributions, clamped to 1. -/
def calculateDirectionRisk (direction : Direction) (gameState : GameState) : ℚ :=
  let head := gameState.snake.headD defaultSegment
  let nextPosition := getNextPosition head.position direction
  let distanceToWall := getDistanceToWall nextPosition gameState.gridSize
  let wallRisk : ℚ := if distanceToWall ≤ 1 then 4/10 else if distanceToWall ≤ 2 then 2/10 else 0
  let distanceToSelf := getDistanceToSnakeBody nextPosition gameState.snake
  let selfRisk : ℚ := if distanceToSelf ≤ 1 then 5/10 else if distanceToSelf ≤ 2 then 3/10 else 0
  let escapeRoutes := countEscapeRoutes nextPosition gameState
  let trapRisk : ℚ := if escapeRoutes ≤ 1 then 3/10 else if escapeRoutes ≤ 2 then 1/10 else 0
  min 1 (wallRisk + selfRisk + trapRisk)

/-- `PlayerProfiler.recordInput`: push latency and direction into the capped
windows, record the decision point, nudge `riskTolerance` toward the
observed risk, and recompute `skillProgression` from the game state. -/
def recordInput (p : Profiler) (playerInput : PlayerInput) (gameState : GameState)
    (now : ℚ) : Profiler :=
  let reactionTimes1 := p.reactionTimes ++ [playerInput.inputLatency]
  let inputLatency1 := p.inputLatency ++ [playerInput.inputLatency]
  let trimRT := 50 < reactionTimes1.length
  let reactionTimes2 := if trimRT then reactionTimes1.tail else reactionTimes1
  let inputLatency2 := if trimRT then inputLatency1.tail else inputLatency1
  let movementHistory1 := p.movementHistory ++ [playerInput.direction]
  let movementPatterns1 := p.movementPatterns ++ [playerInput.direction]
  let trimMH := 100 < movementHistory1.length
  let movementHistory2 := if trimMH then movementHistory1.tail else movementHistory1
  let movementPatterns2 := if trimMH then movementPatterns1.tail else movementPatterns1
  -- analyzeDecisionRisk
  let availableMoves := getAvailableMoves gameState
  let decisionPoints1 :=
    p.decisionPoints ++ [⟨now, availableMoves.length, playerInput.direction⟩]
  let decisionPoints2 := if 20 < decisionPoints1.length then decisionPoints1.tail
    else decisionPoints1
  let riskLevel := calculateDirectionRisk playerInput.direction gameState
  let riskTolerance2 := max 0 (min 1 (p.riskTolerance + (riskLevel - 1/2) * (1/10)))
  -- updateSkillProgression
  let skillProgression2 :=
    ((gameState.score : ℚ) / 1000) * (3/10) +
    ((gameState.snake.length : ℚ) / 20) * (1/4) +
    min 1 (gameState.gameTime / 300000) * (3/20) +
    p.foodCollectionEfficiency * (1/5) +
    (1 - p.errorFrequency) * (1/10)
  { p with
    reactionTimes := reactionTimes2
    inputLatency := inputLatency2
    movementHistory := movementHistory2
    movementPatterns := movementPatterns2
    decisionPoints := decisionPoints2
    riskTolerance := riskTolerance2
    skillProgression := skillProgression2 }

/-- `PlayerProfiler.calculateErrorFrequency`: collisions among the last 10
that fall in the trailing 30 s window, normalised by 5 and capped at 1. -/
def calculateErrorFrequency (collisionHistory : List CollisionRecord) (now : ℚ) : ℚ :=
  let recentCollisions := lastN 10 collisionHistory
  let recentErrors := recentCollisions.filter fun collision =>
    decide (now - collision.timestamp < 30000)
  min 1 ((recentErrors.length : ℚ) / 5)

/-- `PlayerProfiler.recordCollision`.  (The `gameState` parameter is unused
in the source body as well.) -/
def recordCollision (p : Profiler) (collisionType : String) (position : Position)
    (_gameState : GameState) (now : ℚ) : Profiler :=
  let collisionHistory1 := p.collisionHistory ++ [⟨now, collisionType, position⟩]
  let errorFrequency1 := calculateErrorFrequency collisionHistory1 now
  let collisionNearMisses1 :=
    if collisionType = "near_miss" then p.collisionNearMisses + 1 else p.collisionNearMisses
  { p with
    collisionHistory := collisionHistory1
    errorFrequency := errorFrequency1
    collisionNearMisses := collisionNearMisses1 }

/-- `PlayerProfiler.calculateFoodCollectionEfficiency`.  (When head and food
coincide the JS expression divides by zero and produces `NaN`/`Infinity`;
`ℚ` division by zero yields `0` instead.  No claim exercises that case.) -/
def calculateFoodCollectionEfficiency (gameState : GameState) (timeTaken : ℚ) : ℚ :=
  let head := gameState.snake.headD defaultSegment
  let optimalMoves : ℤ :=
    |head.position.x - gameState.food.x| + |head.position.y - gameState.food.y|
  let actualTime := timeTaken / 1000
  let timeEfficiency := max 0 (1 - (actualTime - (optimalMoves : ℚ)) / (optimalMoves : ℚ))
  min 1 timeEfficiency

/-- `PlayerProfiler.calculateAverageEfficiency`. -/
def calculateAverageEfficiency (foodCollectionHistory : List FoodCollectionRecord) : ℚ :=
  if foodCollectionHistory.isEmpty then 0
  else
    let recentHistory := lastN 10 foodCollectionHistory
    (recentHistory.map fun record => record.efficiency).sum / (recentHistory.length : ℚ)

/-- `PlayerProfiler.recordFoodCollection`. -/
def recordFoodCollection (p : Profiler) (gameState : GameState) (timeTaken : ℚ)
    (now : ℚ) : Profiler :=
  let efficiency := calculateFoodCollectionEfficiency gameState timeTaken
  let foodCollectionHistory1 := p.foodCollectionHistory ++ [⟨now, efficiency⟩]
  let foodCollectionEfficiency1 := calculateAverageEfficiency foodCollectionHistory1
  { p with
    foodCollectionHistory := foodCollectionHistory1
    foodCollectionEfficiency := foodCollectionEfficiency1 }

/-- `PlayerProfiler.averageReactionTime`. -/
def averageReactionTime (p : Profiler) : ℚ :=
  if p.reactionTimes.isEmpty then 0
  else p.reactionTimes.sum / (p.reactionTimes.length : ℚ)

/-- Reaction-time factor of `calculateStressLevel` (counted only with at
least 5 reaction times; contributes 0.3 when the recent-5 average is below
80 % of the lifetime average).  The pair is (stress contribution, factor
counted). -/
def stressReactionFactor (p : Profiler) : ℚ × ℕ :=
  if 5 ≤ p.reactionTimes.length then
    (if (lastN 5 p.reactionTimes).sum / 5 < averageReactionTime p * (8/10) then 3/10 else 0, 1)
  else (0, 0)

/-- Input-frequency factor of `calculateStressLevel` (counted only with at
least 5 recent latencies; contributes 0.4 when the average interval is
under 150 ms). -/
def stressFrequencyFactor (p : Profiler) : ℚ × ℕ :=
  let recentInputs := lastN 10 p.inputLatency
  if 5 ≤ recentInputs.length then
    (if recentInputs.sum / (recentInputs.length : ℚ) < 150 then 4/10 else 0, 1)
  else (0, 0)

/-- `PlayerProfiler.calculateStressLevel`: up to four factors, the first two
counted only when enough history exists, averaged over the number of counted
factors and capped at 1. -/
def calculateStressLevel (p : Profiler) : ℚ :=
  let reactionFactor := stressReactionFactor p
  let frequencyFactor := stressFrequencyFactor p
  let errorFactor : ℚ := p.errorFrequency * (1/2)
  let nearMissFactor : ℚ := if 3 < p.collisionNearMisses then 3/10 else 0
  let stressFactors := reactionFactor.1 + frequencyFactor.1 + errorFactor + nearMissFactor
  let factorCount : ℕ := reactionFactor.2 + frequencyFactor.2 + 1 + 1
  if 0 < factorCount then min 1 (stressFactors / (factorCount : ℚ)) else 0

/-- `PlayerProfiler.reset`: every field back to its constructor default. -/
def resetProfiler (now : ℚ) : Profiler := initialProfiler now

/-! ## AIGameDirector -/

/-- `CollisionDetector.getValidAdjacentPositions` (with its default
`position` argument, the snake head). -/
def getValidAdjacentPositions (gameState : GameState) : List Position :=
  let checkPosition := (gameState.snake.headD defaultSegment).position
  let deltas : List (ℤ × ℤ) := [(0, -1), (0, 1), (-1, 0), (1, 0)]
  deltas.filterMap fun d =>
    let newPos : Position := ⟨checkPosition.x + d.1, checkPosition.y + d.2⟩
    if isPositionValid newPos gameState.gridSize &&
        !wouldCollideWithSnake newPos gameState.snake then
      some newPos
    else none

/-- `CollisionDetector.assessDangerLevel`: movement danger from the number
of free adjacent cells plus `0.3` when the head is within one cell of a
wall, capped at 1. -/
def assessDangerLevel (gameState : GameState) : ℚ :=
  let head := gameState.snake.headD defaultSegment
  let availableMoves := (getValidAdjacentPositions gameState).length
  let movementDanger : ℚ := 1 - (availableMoves : ℚ) / 4
  let wallProximity : ℤ :=
    min (min head.position.x head.position.y)
      (min ((gameState.gridSize.width : ℤ) - 1 - head.position.x)
        ((gameState.gridSize.height : ℤ) - 1 - head.position.y))
  let wallDanger : ℚ := if wallProximity ≤ 1 then 3/10 else 0
  min 1 (movementDanger + wallDanger)

/-- `AIGameDirector.assessRiskLevel`: weighted danger/stress/error mix,
capped at 1. -/
def assessRiskLevel (gameState : GameState) (prof : Profiler) : ℚ :=
  min 1 (assessDangerLevel gameState * (5/10) + calculateStressLevel prof * (3/10) +
    prof.errorFrequency * (2/10))

/-- `explanationVerbosity` values. -/
inductive Verbosity where
  | minimal
  | detailed
  | verbose
deriving DecidableEq, Repr

/-- `AIConfiguration` from `AIGameDirector.ts`. -/
structure AIConfiguration where
  adaptationSensitivity : ℚ
  maxSpeedIncrease : ℚ
  minSpeedDecrease : ℚ
  recoveryThreshold : ℚ
  masteryThreshold : ℚ
  explanationVerbosity : Verbosity
deriving DecidableEq, Repr

/-- Constructor defaults of `AIGameDirector.configuration`. -/
def defaultAIConfiguration : AIConfiguration :=
  { adaptationSensitivity := 7/10
    maxSpeedIncrease := 3
    minSpeedDecrease := 3/10
    recoveryThreshold := 6/10
    masteryThreshold := 7/10
    explanationVerbosity := .detailed }

/-- `AIDecision.type` values. -/
inductive DecisionType where
  | SPEED_ADJUSTMENT
  | FOOD_PLACEMENT
  | RECOVERY_TRIGGER
deriving DecidableEq, Repr

/-- `AIDecision.playerMetrics`. -/
structure PlayerMetrics where
  reactionTime : ℚ
  stressLevel : ℚ
  skillLevel : ℚ
deriving DecidableEq, Repr

/-- `AIDecision.gameContext` (initialised to zeros by `logDecision`; updated
later by `updateDecisionContext`, which no claim exercises). -/
structure GameContext where
  score : ℤ
  snakeLength : ℕ
  gameTime : ℚ
deriving DecidableEq, Repr

/-- `AIDecision` from `AITypes.ts`. -/
structure AIDecision where
  timestamp : ℚ
  type : DecisionType
  reasoning : String
  playerMetrics : PlayerMetrics
  gameContext : GameContext
deriving DecidableEq, Repr

/-- Director instance state (`AIGameDirector` private fields). -/
structure DirectorState where
  configuration : AIConfiguration
  decisionHistory : List AIDecision
  currentDifficultyLevel : ℚ
  recoveryModeActive : Bool
  lastSpeedAdjustment : ℚ
  consecutiveGoodPerformance : ℕ
  consecutivePoorPerformance : ℕ
  lastAnalysisTime : ℚ
deriving DecidableEq, Repr

/-- `AIGameDirector.MAX_DECISION_HISTORY`. -/
def MAX_DECISION_HISTORY : ℕ := 100

/-- `String.prototype.includes` on character lists. -/
def containsToken (hay needle : List Char) : Bool :=
  match hay with
  | [] => needle.isEmpty
  | _ :: t => needle.isPrefixOf hay || containsToken t needle

/-- `decision.toLowerCase().includes(token)`. -/
def stringIncludes (hay needle : String) : Bool :=
  containsToken hay.data needle.data

/-- `String.prototype.toLowerCase` on a character (the decision strings
fed to `categorizeDecision` are all ASCII, where lowercasing adds 32 to
the code points of A–Z). -/
def toLowerChar (c : Char) : Char :=
  if 65 ≤ c.toNat ∧ c.toNat ≤ 90 then Char.ofNat (c.toNat + 32) else c

/-- `String.prototype.toLowerCase`. -/
def toLowerCase (s : String) : String := ⟨s.data.map toLowerChar⟩

/-- `AIGameDirector.categorizeDecision`. -/
def categorizeDecision (decision : String) : DecisionType :=
  let lower := toLowerCase decision
  if stringIncludes lower "speed" then .SPEED_ADJUSTMENT
  else if stringIncludes lower "food" || stringIncludes lower "placement" then .FOOD_PLACEMENT
  else if stringIncludes lower "recovery" then .RECOVERY_TRIGGER
  else .SPEED_ADJUSTMENT

/-- `AIGameDirector.logDecision`: build the decision record (metrics drawn
from the profiler, game context zeroed) and append it to the bounded
history, evicting the oldest entry past 100. -/
def logDecision (d : DirectorState) (prof : Profiler) (now : ℚ)
    (decision reasoning : String) : DirectorState :=
  let aiDecision : AIDecision :=
    { timestamp := now
      type := categorizeDecision decision
      reasoning := reasoning
      playerMetrics :=
        ⟨averageReactionTime prof, calculateStressLevel prof, prof.skillProgression⟩
      gameContext := ⟨0, 0, 0⟩ }
  let decisionHistory1 := d.decisionHistory ++ [aiDecision]
  let decisionHistory2 :=
    if MAX_DECISION_HISTORY < decisionHistory1.length then decisionHistory1.tail
    else decisionHistory1
  { d with decisionHistory := decisionHistory2 }

/-- The slice of the duck-typed `analysis` record that
`evaluateRecoveryMode` reads (`analysis.risk`,
`analysis.profile.stressLevel`). -/
structure BehaviorAnalysisProfile where
  stressLevel : ℚ
deriving DecidableEq, Repr

/-- Behavior-analysis record consumed by the recovery gate. -/
structure BehaviorAnalysis where
  risk : ℚ
  profile : BehaviorAnalysisProfile
deriving DecidableEq, Repr

/-- `AIGameDirector.evaluateRecoveryMode`: activate when risk, stress or the
poor streak crosses its threshold, deactivate when none does; both
transitions log a decision.  (The `toFixed` numeric interpolation in the
source's reasoning strings is abstracted to their static text.) -/
def evaluateRecoveryMode (d : DirectorState) (prof : Profiler) (now : ℚ)
    (analysis : BehaviorAnalysis) : DirectorState :=
  let shouldActivateRecovery :=
    decide (d.configuration.recoveryThreshold < analysis.risk) ||
    decide ((7/10 : ℚ) < analysis.profile.stressLevel) ||
    decide (3 ≤ d.consecutivePoorPerformance)
  if shouldActivateRecovery && !d.recoveryModeActive then
    logDecision { d with recoveryModeActive := true } prof now
      "Recovery mode activated" "High risk or stress detected"
  else if !shouldActivateRecovery && d.recoveryModeActive then
    logDecision { d with recoveryModeActive := false } prof now
      "Recovery mode deactivated" "Player performance stabilized"
  else d

/-! ## Reference/aliasing model of `getGameState()`

`getGameState` executes `return { ...this.gameState }`.  The spread copies
the field *values*: primitives (`score`, `gameStatus`, `speed`, `gameTime`)
by value, but the `snake` field's value is the array reference, so snapshot
and manager share one snake array (and its segment objects).  To state the
claim about mutation through the snapshot we make that reference explicit:
a heap maps array references to segment lists, and a `GameStateObj` holds a
reference where the JS object holds the array. -/

/-- Heap of snake arrays, addressed by reference. -/
structure SnakeHeap where
  arrays : ℕ → List SnakeSegment

/-- A JS `GameState` object: primitive fields inline, the snake array held
by reference.  (`food`/`gridSize` are also shared object references in JS;
the claim only needs the snake array, so they are kept inline here.) -/
structure GameStateObj where
  snakeRef : ℕ
  food : Position
  score : ℤ
  gameStatus : GameStatus
  speed : ℚ
  gridSize : GridSize
  gameTime : ℚ

/-- `GameStateManager.getGameState`: `{ ...this.gameState }` — a fresh
object with the same field values, hence the same `snakeRef`. -/
def getGameStateObj (m : GameStateObj) : GameStateObj :=
  { snakeRef := m.snakeRef
    food := m.food
    score := m.score
    gameStatus := m.gameStatus
    speed := m.speed
    gridSize := m.gridSize
    gameTime := m.gameTime }

/-- Replace the element at an index (identity when out of range). -/
def modifyAt {α : Type} (f : α → α) : ℕ → List α → List α
  | _, [] => []
  | 0, a :: l => f a :: l
  | n + 1, a :: l => a :: modifyAt f n l

/-- `snapshot.snake[i].position = p` — a heap write through the snake-array
reference held by the snapshot. -/
def writeSegmentPosition (h : SnakeHeap) (ref i : ℕ) (p : Position) : SnakeHeap :=
  ⟨fun j =>
    if j = ref then modifyAt (fun s => { s with position := p }) i (h.arrays ref)
    else h.arrays j⟩

/-- The game state the manager itself observes: its object with the snake
array read back through the heap. -/
def materializeSnake (m : GameStateObj) (h : SnakeHeap) : List SnakeSegment :=
  h.arrays m.snakeRef

/-- A manager freshly constructed (its `createInitialState` snake stored at
reference 0, food at the cell (15, 15)). -/
def managerObj0 : GameStateObj :=
  { snakeRef := 0
    food := ⟨15, 15⟩
    score := 0
    gameStatus := .INIT
    speed := 1
    gridSize := ⟨GRID_WIDTH, GRID_HEIGHT⟩
    gameTime := 0 }

/-- Heap backing `managerObj0`: reference 0 holds the initial snake. -/
def sharedHeap0 : SnakeHeap :=
  ⟨fun _ => (createInitialState ⟨15, 15⟩).snake⟩

/-! ## Reachability relations -/

/-- Food position never overlaps a snake segment (the §3 `GameState`
invariant claimed by the spec). -/
def FoodClear (gs : GameState) : Prop :=
  ∀ segment ∈ gs.snake, segment.position ≠ gs.food

/-- Game states reachable through the public operations named by the claim:
initial construction (with the rejection-sampled food draw), the five
status-transition operations, `setSpeed`, `spawnFoodAt`, and `moveSnake`
with or without an installed `onFoodConsumed` callback (any callback, as the
field's type admits). -/
inductive GameReachable : GameState → Prop where
  | init (foodPos : Position) (hx0 : 0 ≤ foodPos.x) (hx : foodPos.x < (GRID_WIDTH : ℤ))
      (hy0 : 0 ≤ foodPos.y) (hy : foodPos.y < (GRID_HEIGHT : ℤ))
      (hfree : wouldCollideWithSnake foodPos (createInitialState foodPos).snake = false) :
      GameReachable (createInitialState foodPos)
  | start {gs : GameState} : GameReachable gs → GameReachable (startGame gs).2
  | pause {gs : GameState} : GameReachable gs → GameReachable (pauseGame gs).2
  | resume {gs : GameState} : GameReachable gs → GameReachable (resumeGame gs).2
  | stop {gs : GameState} : GameReachable gs → GameReachable (endGame gs).2
  | reset {gs : GameState} (foodPos : Position) (hx0 : 0 ≤ foodPos.x)
      (hx : foodPos.x < (GRID_WIDTH : ℤ)) (hy0 : 0 ≤ foodPos.y)
      (hy : foodPos.y < (GRID_HEIGHT : ℤ))
      (hfree : wouldCollideWithSnake foodPos (createInitialState foodPos).snake = false) :
      GameReachable gs → GameReachable (resetGame gs foodPos).2
  | speed {gs : GameState} (v : ℚ) : GameReachable gs → GameReachable (setSpeed gs v)
  | spawn {gs : GameState} (p : Position) : GameReachable gs → GameReachable (spawnFoodAt gs p).2
  | move {gs gs' : GameState} (cb : Option (GameState → Position)) (r : ℚ)
      (hr0 : 0 ≤ r) (hr1 : r < 1) (h : moveSnake gs cb r = some gs') :
      GameReachable gs → GameReachable gs'

/-- Same reachable set, except that an installed `onFoodConsumed` callback
is required never to return a position on the snake of the state it is
given (the guarantee the director's validation provides except in its
degenerate full-grid last resort). -/
inductive GameReachableSafe : GameState → Prop where
  | init (foodPos : Position) (hx0 : 0 ≤ foodPos.x) (hx : foodPos.x < (GRID_WIDTH : ℤ))
      (hy0 : 0 ≤ foodPos.y) (hy : foodPos.y < (GRID_HEIGHT : ℤ))
      (hfree : wouldCollideWithSnake foodPos (createInitialState foodPos).snake = false) :
      GameReachableSafe (createInitialState foodPos)
  | start {gs : GameState} : GameReachableSafe gs → GameReachableSafe (startGame gs).2
  | pause {gs : GameState} : GameReachableSafe gs → GameReachableSafe (pauseGame gs).2
  | resume {gs : GameState} : GameReachableSafe gs → GameReachableSafe (resumeGame gs).2
  | stop {gs : GameState} : GameReachableSafe gs → GameReachableSafe (endGame gs).2
  | reset {gs : GameState} (foodPos : Position) (hx0 : 0 ≤ foodPos.x)
      (hx : foodPos.x < (GRID_WIDTH : ℤ)) (hy0 : 0 ≤ foodPos.y)
      (hy : foodPos.y < (GRID_HEIGHT : ℤ))
      (hfree : wouldCollideWithSnake foodPos (createInitialState foodPos).snake = false) :
      GameReachableSafe gs → GameReachableSafe (resetGame gs foodPos).2
  | speed {gs : GameState} (v : ℚ) : GameReachableSafe gs → GameReachableSafe (setSpeed gs v)
  | spawn {gs : GameState} (p : Position) :
      GameReachableSafe gs → GameReachableSafe (spawnFoodAt gs p).2
  | moveDefault {gs gs' : GameState} (r : ℚ) (hr0 : 0 ≤ r) (hr1 : r < 1)
      (h : moveSnake gs none r = some gs') :
      GameReachableSafe gs → GameReachableSafe gs'
  | moveCallback {gs gs' : GameState} (f : GameState → Position) (r : ℚ)
      (hr0 : 0 ≤ r) (hr1 : r < 1)
      (hcb : ∀ s : GameState, wouldCollideWithSnake (f s) s.snake = false)
      (h : moveSnake gs (some f) r = some gs') :
      GameReachableSafe gs → GameReachableSafe gs'

/-- Profiler states reachable through its mutators (`recordInput`,
`recordCollision`, `recordFoodCollection`, `reset`) from a freshly
constructed profiler. -/
inductive ProfilerReachable : Profiler → Prop where
  | init (now : ℚ) : ProfilerReachable (initialProfiler now)
  | input {p : Profiler} (playerInput : PlayerInput) (gameState : GameState) (now : ℚ) :
      ProfilerReachable p → ProfilerReachable (recordInput p playerInput gameState now)
  | collision {p : Profiler} (collisionType : String) (position : Position)
      (gameState : GameState) (now : ℚ) :
      ProfilerReachable p →
      ProfilerReachable (recordCollision p collisionType position gameState now)
  | food {p : Profiler} (gameState : GameState) (timeTaken now : ℚ) :
      ProfilerReachable p → ProfilerReachable (recordFoodCollection p gameState timeTaken now)
  | reset {p : Profiler} (now : ℚ) : ProfilerReachable p → ProfilerReachable (resetProfiler now)

/-- A sequence of `recordInput` calls applied in order (the quantification
shape of the skill-progression claim). -/
def applyInputs (p : Profiler) : List (PlayerInput × GameState × ℚ) → Profiler
  | [] => p
  | (playerInput, gameState, now) :: rest =>
      applyInputs (recordInput p playerInput gameState now) rest

/-! ## Helper lemmas -/

theorem position_eq_iff (a b : Position) : a = b ↔ a.x = b.x ∧ a.y = b.y := by
  cases a; cases b; simp

theorem wouldCollide_eq_false_iff (p : Position) (snake : List SnakeSegment) :
    wouldCollideWithSnake p snake = false ↔ ∀ s ∈ snake, s.position ≠ p := by
  simp [wouldCollideWithSnake, position_eq_iff]

theorem oppositeDirection_inj (a b : Direction) :
    oppositeDirection a = oppositeDirection b ↔ a = b := by
  cases a <;> cases b <;> simp [oppositeDirection]

theorem updateAges_length (n : ℕ) (l : List SnakeSegment) :
    (updateAges n l).length = l.length := by
  induction l generalizing n with
  | nil => rfl
  | cons s t ih => simp [updateAges, ih]

theorem updateAges_map_position (n : ℕ) (l : List SnakeSegment) :
    (updateAges n l).map (fun s => s.position) = l.map (fun s => s.position) := by
  induction l generalizing n with
  | nil => rfl
  | cons s t ih => simp [updateAges, ih]

theorem mem_updateAges_position {s : SnakeSegment} {n : ℕ} {l : List SnakeSegment}
    (h : s ∈ updateAges n l) : ∃ s' ∈ l, s'.position = s.position := by
  have := updateAges_map_position n l
  have hmem : s.position ∈ (updateAges n l).map (fun s => s.position) :=
    List.mem_map_of_mem _ h
  rw [this] at hmem
  obtain ⟨s', hs', hps⟩ := List.mem_map.1 hmem
  exact ⟨s', hs', hps⟩

theorem mem_insertByKey {α : Type} (key : α → ℤ) (a x : α) (l : List α) :
    x ∈ insertByKey key a l ↔ x = a ∨ x ∈ l := by
  induction l with
  | nil => simp [insertByKey]
  | cons b t ih =>
      simp only [insertByKey]
      split
      · simp [ih]; tauto
      · simp

theorem insertByKey_length {α : Type} (key : α → ℤ) (a : α) (l : List α) :
    (insertByKey key a l).length = l.length + 1 := by
  induction l with
  | nil => rfl
  | cons b t ih =>
      simp only [insertByKey]
      split
      · simp [ih]
      · simp

theorem mem_sortByKey {α : Type} (key : α → ℤ) (x : α) (l : List α) :
    x ∈ sortByKey key l ↔ x ∈ l := by
  induction l with
  | nil => simp [sortByKey]
  | cons a t ih => simp [sortByKey, mem_insertByKey, ih]

theorem sortByKey_length {α : Type} (key : α → ℤ) (l : List α) :
    (sortByKey key l).length = l.length := by
  induction l with
  | nil => rfl
  | cons a t ih => simp [sortByKey, insertByKey_length, ih]

theorem mem_getAllValidPositions {gs : GameState} {p : Position} :
    p ∈ getAllValidPositions gs ↔
      (∃ x < gs.gridSize.width, ∃ y < gs.gridSize.height, p = ⟨(x : ℤ), (y : ℤ)⟩) ∧
      wouldCollideWithSnake p gs.snake = false := by
  constructor
  · intro hmem
    obtain ⟨x, hxr, hy⟩ := List.mem_flatMap.1 hmem
    obtain ⟨y, hyr, hif⟩ := List.mem_filterMap.1 hy
    rw [List.mem_range] at hxr
    rw [List.mem_range] at hyr
    dsimp only at hif
    by_cases hc : wouldCollideWithSnake ⟨(x : ℤ), (y : ℤ)⟩ gs.snake
    · rw [if_pos hc] at hif
      exact Option.noConfusion hif
    · rw [if_neg hc] at hif
      have hpe : (⟨(x : ℤ), (y : ℤ)⟩ : Position) = p := Option.some.inj hif
      refine ⟨⟨x, hxr, y, hyr, hpe.symm⟩, ?_⟩
      rw [← hpe]
      simpa using hc
  · rintro ⟨⟨x, hx, y, hy, rfl⟩, hc⟩
    apply List.mem_flatMap.2
    refine ⟨x, List.mem_range.2 hx, List.mem_filterMap.2 ⟨y, List.mem_range.2 hy, ?_⟩⟩
    simp [hc]

theorem getAllValidPositions_eq_nil_iff {gs : GameState} :
    getAllValidPositions gs = [] ↔
      ∀ x < gs.gridSize.width, ∀ y < gs.gridSize.height,
        wouldCollideWithSnake ⟨(x : ℤ), (y : ℤ)⟩ gs.snake = true := by
  constructor
  · intro hnil x hx y hy
    by_contra hc
    have hfree : wouldCollideWithSnake ⟨(x : ℤ), (y : ℤ)⟩ gs.snake = false :=
      Bool.eq_false_iff.2 hc
    have : (⟨(x : ℤ), (y : ℤ)⟩ : Position) ∈ getAllValidPositions gs :=
      mem_getAllValidPositions.2 ⟨⟨x, hx, y, hy, rfl⟩, hfree⟩
    rw [hnil] at this
    exact absurd this (List.not_mem_nil _)
  · intro hfull
    by_contra hne
    obtain ⟨p, hp⟩ := List.exists_mem_of_ne_nil _ hne
    obtain ⟨⟨x, hx, y, hy, rfl⟩, hc⟩ := mem_getAllValidPositions.1 hp
    rw [hfull x hx y hy] at hc
    exact Bool.noConfusion hc

theorem sel_index_lt (b t : ℕ) (X r : ℚ) (hX : 0 < X) (h0 : 0 ≤ r) (h1 : r < 1)
    (hbXt : (b : ℚ) + X ≤ (t : ℚ)) : b + (⌊r * X⌋).toNat < t := by
  have hrX0 : 0 ≤ r * X := mul_nonneg h0 hX.le
  have hrXX : r * X < X := by nlinarith
  have hfl0 : 0 ≤ ⌊r * X⌋ := Int.floor_nonneg.2 hrX0
  have hZ : ⌊r * X⌋ < (t : ℤ) - (b : ℤ) := by
    rw [Int.floor_lt]
    push_cast
    linarith
  have hfinal : ((b + (⌊r * X⌋).toNat : ℕ) : ℤ) < (t : ℤ) := by
    push_cast [Int.toNat_of_nonneg hfl0]
    linarith
  exact_mod_cast hfinal

theorem toNat_floor_le (q : ℚ) (h : 0 ≤ q) : (((⌊q⌋).toNat : ℕ) : ℚ) ≤ q := by
  have h1 : (((⌊q⌋).toNat : ℕ) : ℤ) = ⌊q⌋ := Int.toNat_of_nonneg (Int.floor_nonneg.2 h)
  have h2 : ((((⌊q⌋).toNat : ℕ) : ℤ) : ℚ) = ((⌊q⌋ : ℤ) : ℚ) := by rw [h1]
  have h3 : ((((⌊q⌋).toNat : ℕ) : ℤ) : ℚ) = (((⌊q⌋).toNat : ℕ) : ℚ) := by push_cast; ring
  rw [← h3, h2]
  exact Int.floor_le _

theorem selectPositionByDifficulty_mem (validPositions : List Position)
    (snakeHead : Position) (difficulty : Difficulty) (r : ℚ)
    (h0 : 0 ≤ r) (h1 : r < 1) (hne : validPositions ≠ []) :
    selectPositionByDifficulty validPositions snakeHead difficulty r ∈ validPositions := by
  have hlen : (sortByKey (fun pr : Position × ℤ => pr.2)
      (validPositions.map fun pos => (pos, calculateDistance snakeHead pos))).length
      = validPositions.length := by
    rw [sortByKey_length, List.length_map]
  have hidx : ∀ i : ℕ, i < validPositions.length →
      ((sortByKey (fun pr : Position × ℤ => pr.2)
        (validPositions.map fun pos => (pos, calculateDistance snakeHead pos))).getD i
          (⟨0, 0⟩, 0)).1 ∈ validPositions := by
    intro i hi
    have hi' : i < (sortByKey (fun pr : Position × ℤ => pr.2)
        (validPositions.map fun pos => (pos, calculateDistance snakeHead pos))).length := by
      rw [hlen]; exact hi
    rw [List.getD_eq_getElem _ _ hi']
    have hmem := List.getElem_mem hi'
    rw [mem_sortByKey] at hmem
    obtain ⟨pos, hpos, hpe⟩ := List.mem_map.1 hmem
    rw [← hpe]
    exact hpos
  have ht1 : 1 ≤ validPositions.length := List.length_pos.2 hne
  have ht1q : (1 : ℚ) ≤ (validPositions.length : ℚ) := by exact_mod_cast ht1
  cases difficulty with
  | easy =>
      unfold selectPositionByDifficulty
      dsimp only
      rw [hlen]
      apply hidx
      have hX : (0 : ℚ) < max 1 ((validPositions.length : ℚ) * (3/10)) :=
        lt_of_lt_of_le one_pos (le_max_left _ _)
      have hmax : max (1 : ℚ) ((validPositions.length : ℚ) * (3/10)) ≤
          (validPositions.length : ℚ) := max_le ht1q (by nlinarith)
      have := sel_index_lt 0 validPositions.length
        (max 1 ((validPositions.length : ℚ) * (3/10))) r hX h0 h1 (by push_cast; linarith)
      simpa using this
  | medium =>
      unfold selectPositionByDifficulty
      dsimp only
      rw [hlen]
      apply hidx
      have hb' : (((⌊(validPositions.length : ℚ) * (3/10)⌋).toNat : ℕ) : ℚ) ≤
          (validPositions.length : ℚ) * (3/10) := toNat_floor_le _ (by positivity)
      have hX : (0 : ℚ) < max 1 ((validPositions.length : ℚ) * (4/10)) :=
        lt_of_lt_of_le one_pos (le_max_left _ _)
      apply sel_index_lt _ _ _ r hX h0 h1
      rcases le_total ((validPositions.length : ℚ) * (4/10)) 1 with hc | hc
      · rw [max_eq_left hc]
        have hb0 : (((⌊(validPositions.length : ℚ) * (3/10)⌋).toNat : ℕ) : ℚ) < 1 := by
          linarith
        have hb00 : ((⌊(validPositions.length : ℚ) * (3/10)⌋).toNat : ℕ) = 0 := by
          have : ((⌊(validPositions.length : ℚ) * (3/10)⌋).toNat : ℕ) < 1 := by
            exact_mod_cast hb0
          omega
        rw [hb00]
        push_cast
        linarith
      · rw [max_eq_right hc]
        linarith
  | hard =>
      unfold selectPositionByDifficulty
      dsimp only
      rw [hlen]
      apply hidx
      have hb' : (((⌊(validPositions.length : ℚ) * (7/10)⌋).toNat : ℕ) : ℚ) ≤
          (validPositions.length : ℚ) * (7/10) := toNat_floor_le _ (by positivity)
      have hX : (0 : ℚ) < (validPositions.length : ℚ) -
          (((⌊(validPositions.length : ℚ) * (7/10)⌋).toNat : ℕ) : ℚ) := by nlinarith
      apply sel_index_lt _ _ _ r hX h0 h1
      linarith

theorem generateOptimal_none_iff (gs : GameState) (pref : Option Difficulty) (r : ℚ) :
    generateOptimalFoodPosition gs pref r = none ↔ getAllValidPositions gs = [] := by
  unfold generateOptimalFoodPosition
  dsimp only
  by_cases h : (getAllValidPositions gs).isEmpty
  · simp only [h, if_true]
    simpa [List.isEmpty_iff] using h
  · cases pref <;> simp [h, List.isEmpty_iff] <;>
      simpa [List.isEmpty_iff] using h

theorem generateOptimal_some_mem {gs : GameState} {pref : Option Difficulty} {r : ℚ}
    (h0 : 0 ≤ r) (h1 : r < 1) {p : Position}
    (h : generateOptimalFoodPosition gs pref r = some p) : p ∈ getAllValidPositions gs := by
  unfold generateOptimalFoodPosition at h
  dsimp only at h
  by_cases he : (getAllValidPositions gs).isEmpty
  · simp [he] at h
  · have hne : getAllValidPositions gs ≠ [] := by
      simpa [List.isEmpty_iff] using he
    rw [if_neg (by simpa using he)] at h
    cases pref with
    | some difficulty =>
        have := selectPositionByDifficulty_mem (getAllValidPositions gs)
          ((gs.snake.headD defaultSegment).position) difficulty r h0 h1 hne
        simpa [← Option.some.inj h] using this
    | none =>
        have hlen : 0 < (getAllValidPositions gs).length := List.length_pos.2 hne
        have hidx : (⌊r * ((getAllValidPositions gs).length : ℚ)⌋).toNat <
            (getAllValidPositions gs).length := by
          have := sel_index_lt 0 (getAllValidPositions gs).length
            (((getAllValidPositions gs).length : ℚ)) r (by exact_mod_cast hlen) h0 h1
            (by push_cast; linarith)
          simpa using this
        rw [List.getD_eq_getElem _ _ hidx] at h
        rw [← Option.some.inj h]
        exact List.getElem_mem hidx

theorem generateOptimal_some_of_ne {gs : GameState} {pref : Option Difficulty} {r : ℚ}
    (hne : getAllValidPositions gs ≠ []) :
    ∃ p, generateOptimalFoodPosition gs pref r = some p := by
  cases hgen : generateOptimalFoodPosition gs pref r with
  | none => exact absurd ((generateOptimal_none_iff gs pref r).1 hgen) hne
  | some p => exact ⟨p, rfl⟩

theorem checkFood_eaten (gs : GameState) (r : ℚ)
    (heat : (gs.snake.headD defaultSegment).position = gs.food) :
    checkFoodConsumption gs r = (generateOptimalFoodPosition gs none r).map
      (fun newFoodPosition =>
        ⟨true, calculateScoreIncrease gs, some newFoodPosition⟩) := by
  unfold checkFoodConsumption
  dsimp only
  have hx : (gs.snake.headD defaultSegment).position.x = gs.food.x := by rw [heat]
  have hy : (gs.snake.headD defaultSegment).position.y = gs.food.y := by rw [heat]
  rw [List.headD_eq_head?] at hx hy
  simp [hx, hy]

theorem checkFood_missed (gs : GameState) (r : ℚ)
    (hne : (gs.snake.headD defaultSegment).position ≠ gs.food) :
    checkFoodConsumption gs r = some ⟨false, 0, none⟩ := by
  unfold checkFoodConsumption
  dsimp only
  by_cases hx : (gs.snake.headD defaultSegment).position.x = gs.food.x
  · by_cases hy : (gs.snake.headD defaultSegment).position.y = gs.food.y
    · exact absurd ((position_eq_iff _ _).2 ⟨hx, hy⟩) hne
    · rw [List.headD_eq_head?] at hx hy
      simp [hx, hy]
  · rw [List.headD_eq_head?] at hx
    simp [hx]

theorem moveSnake_not_playing (gs : GameState) (cb : Option (GameState → Position)) (r : ℚ)
    (h : gs.gameStatus ≠ .PLAYING) : moveSnake gs cb r = some gs := by
  simp [moveSnake, h]

theorem moveSnake_missed_eq (gs : GameState) (head : SnakeSegment)
    (rest : List SnakeSegment) (cb : Option (GameState → Position)) (r : ℚ)
    (hst : gs.gameStatus = .PLAYING) (hsnake : gs.snake = head :: rest)
    (hmiss : (nextHead head).position ≠ gs.food) :
    moveSnake gs cb r = some { gs with
      snake := updateAges 0 ((nextHead head :: head :: rest).dropLast) } := by
  have hcheck := checkFood_missed { gs with snake := nextHead head :: head :: rest } r
    (by simpa using hmiss)
  unfold moveSnake
  rw [if_neg (by simp [hst]), hsnake]
  dsimp only
  rw [hcheck]
  cases cb <;> rfl

theorem moveSnake_eaten_default (gs : GameState) (head : SnakeSegment)
    (rest : List SnakeSegment) (r : ℚ)
    (hst : gs.gameStatus = .PLAYING) (hsnake : gs.snake = head :: rest)
    (heat : (nextHead head).position = gs.food) (h0 : 0 ≤ r) (h1 : r < 1)
    (hfree : getAllValidPositions { gs with snake := nextHead head :: head :: rest } ≠ []) :
    ∃ gs', moveSnake gs none r = some gs' ∧
      gs'.snake = updateAges 0 (nextHead head :: head :: rest) ∧
      gs'.score = gs.score +
        calculateScoreIncrease { gs with snake := nextHead head :: head :: rest } ∧
      gs'.food ∈ getAllValidPositions { gs with snake := nextHead head :: head :: rest } ∧
      gs'.gameStatus = gs.gameStatus ∧ gs'.speed = gs.speed ∧ gs'.gridSize = gs.gridSize := by
  obtain ⟨p, hp⟩ := @generateOptimal_some_of_ne _ none r hfree
  have hpm : p ∈ getAllValidPositions { gs with snake := nextHead head :: head :: rest } :=
    generateOptimal_some_mem h0 h1 hp
  have hcheck := checkFood_eaten { gs with snake := nextHead head :: head :: rest } r
    (by simpa using heat)
  rw [hp, Option.map_some'] at hcheck
  refine ⟨{ gs with
      snake := updateAges 0 (nextHead head :: head :: rest),
      score := gs.score + calculateScoreIncrease { gs with snake := nextHead head :: head :: rest },
      food := p }, ?_, rfl, rfl, hpm, rfl, rfl, rfl⟩
  unfold moveSnake
  rw [if_neg (by simp [hst]), hsnake]
  dsimp only
  rw [hcheck]
  rfl

theorem moveSnake_eaten_callback (gs : GameState) (head : SnakeSegment)
    (rest : List SnakeSegment) (f : GameState → Position) (r : ℚ)
    (hst : gs.gameStatus = .PLAYING) (hsnake : gs.snake = head :: rest)
    (heat : (nextHead head).position = gs.food)
    (hfree : getAllValidPositions { gs with snake := nextHead head :: head :: rest } ≠ []) :
    moveSnake gs (some f) r = some { gs with
      snake := updateAges 0 (nextHead head :: head :: rest),
      score := gs.score + calculateScoreIncrease { gs with snake := nextHead head :: head :: rest },
      food := f { gs with
        snake := nextHead head :: head :: rest,
        score := gs.score +
          calculateScoreIncrease { gs with snake := nextHead head :: head :: rest } } } := by
  obtain ⟨p, hp⟩ := @generateOptimal_some_of_ne _ none r hfree
  have hcheck := checkFood_eaten { gs with snake := nextHead head :: head :: rest } r
    (by simpa using heat)
  rw [hp, Option.map_some'] at hcheck
  unfold moveSnake
  rw [if_neg (by simp [hst]), hsnake]
  dsimp only
  rw [hcheck]
  rfl

/-! ## Claim theorems -/

/-- C3: For every pair (from, to) of statuses not in the table
INIT→{PLAYING}, PLAYING→{PAUSED, GAME_OVER}, PAUSED→{PLAYING, GAME_OVER},
GAME_OVER→{INIT}, the transition operation targeting `to` returns false and
leaves the whole game state unchanged, while every (from, to) pair in the
table makes its corresponding operation return true and set `gameStatus`
to `to`. -/
theorem c3_transition_table_closure (gs : GameState) (foodPos : Position) :
    (isValidTransition gs.gameStatus .PLAYING = false →
        startGame gs = (false, gs) ∧ resumeGame gs = (false, gs)) ∧
    (gs.gameStatus = .INIT →
        startGame gs = (true, { gs with gameStatus := .PLAYING })) ∧
    (gs.gameStatus = .PAUSED →
        resumeGame gs = (true, { gs with gameStatus := .PLAYING })) ∧
    (isValidTransition gs.gameStatus .PAUSED = false → pauseGame gs = (false, gs)) ∧
    (isValidTransition gs.gameStatus .PAUSED = true →
        pauseGame gs = (true, { gs with gameStatus := .PAUSED })) ∧
    (isValidTransition gs.gameStatus .GAME_OVER = false → endGame gs = (false, gs)) ∧
    (isValidTransition gs.gameStatus .GAME_OVER = true →
        endGame gs = (true, { gs with gameStatus := .GAME_OVER })) ∧
    (isValidTransition gs.gameStatus .INIT = false → resetGame gs foodPos = (false, gs)) ∧
    (isValidTransition gs.gameStatus .INIT = true →
        (resetGame gs foodPos).1 = true ∧ (resetGame gs foodPos).2.gameStatus = .INIT) := by
  rcases gs with ⟨snake, food, score, status, speed, gridSize, gameTime⟩
  cases status <;>
    simp [startGame, resumeGame, pauseGame, endGame, resetGame, transitionTo,
      isValidTransition, createInitialState]

/-- Witness for C3 at the freshly constructed manager state (status INIT):
`startGame` succeeds and moves it to PLAYING. -/
theorem c3_transition_table_closure_witness :
    startGame (createInitialState ⟨0, 0⟩) =
      (true, { createInitialState ⟨0, 0⟩ with gameStatus := .PLAYING }) :=
  (c3_transition_table_closure (createInitialState ⟨0, 0⟩) ⟨0, 0⟩).2.1 rfl

/-- C4: `changeDirection(d)` returns false and leaves the state (in
particular the head direction) unchanged when the status is not PLAYING or
`d` is the opposite of the current head direction; otherwise it returns
true and the head's direction becomes `d` immediately. -/
theorem c4_change_direction (gs : GameState) (head : SnakeSegment)
    (rest : List SnakeSegment) (hsnake : gs.snake = head :: rest) (d : Direction) :
    ((gs.gameStatus ≠ .PLAYING ∨ d = oppositeDirection head.direction) →
        changeDirection gs d = (false, gs)) ∧
    (gs.gameStatus = .PLAYING → d ≠ oppositeDirection head.direction →
        changeDirection gs d =
          (true, { gs with snake := { head with direction := d } :: rest })) := by
  constructor
  · rintro (hs | hd)
    · simp [changeDirection, hs]
    · by_cases hs : gs.gameStatus = .PLAYING
      · simp [changeDirection, hs, hsnake, hd.symm]
      · simp [changeDirection, hs]
  · intro hs hd
    simp [changeDirection, hs, hsnake]
    exact fun h => hd h.symm

/-- Witness for C4: in a PLAYING state with the head moving RIGHT,
`changeDirection LEFT` (the 180° turn) is rejected and the state is kept. -/
theorem c4_change_direction_witness :
    changeDirection (startGame (createInitialState ⟨0, 0⟩)).2 .LEFT =
      (false, (startGame (createInitialState ⟨0, 0⟩)).2) :=
  (c4_change_direction (startGame (createInitialState ⟨0, 0⟩)).2
    ⟨⟨10, 10⟩, .RIGHT, 0⟩ [⟨⟨9, 10⟩, .RIGHT, 1⟩, ⟨⟨8, 10⟩, .RIGHT, 2⟩]
    (by decide) .LEFT).1 (Or.inr (by decide))

/-- C5: in a PLAYING state with head direction `d`, a perpendicular turn
`p` followed immediately (no tick in between) by `opposite(d)` both return
true and leave the head pointing at `opposite(d)` — the per-call
no-reversal rule does not prevent a two-input 180° reversal. -/
theorem c5_two_input_reversal (gs : GameState) (head : SnakeSegment)
    (rest : List SnakeSegment) (d p : Direction)
    (hstatus : gs.gameStatus = .PLAYING) (hsnake : gs.snake = head :: rest)
    (hd : head.direction = d) (hp1 : p ≠ d) (hp2 : p ≠ oppositeDirection d) :
    (changeDirection gs p).1 = true ∧
    (changeDirection (changeDirection gs p).2 (oppositeDirection d)).1 = true ∧
    ((changeDirection (changeDirection gs p).2 (oppositeDirection d)).2.snake.headD
        defaultSegment).direction = oppositeDirection d := by
  have h1 : changeDirection gs p =
      (true, { gs with snake := { head with direction := p } :: rest }) := by
    simp [changeDirection, hstatus, hsnake, hd]
    intro hc
    exact absurd hc.symm hp2
  have h2 : changeDirection { gs with snake := { head with direction := p } :: rest }
      (oppositeDirection d) =
      (true, { gs with snake :=
        { head with direction := oppositeDirection d } :: rest }) := by
    simp [changeDirection, hstatus]
    intro hc
    exact absurd ((oppositeDirection_inj p d).1 hc) hp1
  simp [h1, h2]

/-- Witness for C5: from the initial PLAYING state (head RIGHT), UP then
LEFT are both accepted, ending with the head pointing LEFT. -/
theorem c5_two_input_reversal_witness :
    (changeDirection (startGame (createInitialState ⟨0, 0⟩)).2 .UP).1 = true ∧
    (changeDirection
      (changeDirection (startGame (createInitialState ⟨0, 0⟩)).2 .UP).2 .LEFT).1 = true ∧
    ((changeDirection
      (changeDirection (startGame (createInitialState ⟨0, 0⟩)).2 .UP).2 .LEFT).2.snake.headD
        defaultSegment).direction = .LEFT :=
  c5_two_input_reversal (startGame (createInitialState ⟨0, 0⟩)).2
    ⟨⟨10, 10⟩, .RIGHT, 0⟩ [⟨⟨9, 10⟩, .RIGHT, 1⟩, ⟨⟨8, 10⟩, .RIGHT, 2⟩] .RIGHT .UP
    (by decide) (by decide) (by decide) (by decide) (by decide)

theorem foodClear_iff (gs : GameState) :
    FoodClear gs ↔ wouldCollideWithSnake gs.food gs.snake = false := by
  rw [wouldCollide_eq_false_iff]
  rfl

theorem foodClear_createInitialState (foodPos : Position)
    (hfree : wouldCollideWithSnake foodPos (createInitialState foodPos).snake = false) :
    FoodClear (createInitialState foodPos) := by
  intro s hs
  exact (wouldCollide_eq_false_iff _ _).1 hfree s hs

theorem foodClear_transitionTo (gs : GameState) (st : GameStatus) (h : FoodClear gs) :
    FoodClear (transitionTo gs st).2 := by
  unfold transitionTo
  split <;> exact h

theorem foodClear_startGame (gs : GameState) (h : FoodClear gs) :
    FoodClear (startGame gs).2 := by
  unfold startGame
  split
  · exact h
  · exact foodClear_transitionTo _ _ h

theorem foodClear_pauseGame (gs : GameState) (h : FoodClear gs) :
    FoodClear (pauseGame gs).2 := by
  unfold pauseGame
  split
  · exact h
  · exact foodClear_transitionTo _ _ h

theorem foodClear_resumeGame (gs : GameState) (h : FoodClear gs) :
    FoodClear (resumeGame gs).2 := by
  unfold resumeGame
  split
  · exact h
  · exact foodClear_transitionTo _ _ h

theorem foodClear_resetGame (gs : GameState) (foodPos : Position)
    (hfree : wouldCollideWithSnake foodPos (createInitialState foodPos).snake = false)
    (h : FoodClear gs) : FoodClear (resetGame gs foodPos).2 := by
  unfold resetGame
  split
  · exact foodClear_createInitialState foodPos hfree
  · exact h

theorem foodClear_spawnFoodAt (gs : GameState) (p : Position) (h : FoodClear gs) :
    FoodClear (spawnFoodAt gs p).2 := by
  unfold spawnFoodAt
  dsimp only
  split
  · exact h
  · rename_i hcond
    intro s hs
    have hocc : (gs.snake.any fun segment =>
        decide (segment.position.x = p.x) && decide (segment.position.y = p.y)) = false := by
      rcases Bool.or_eq_false_iff.1 (Bool.or_eq_false_iff.1 (Bool.or_eq_false_iff.1
        (Bool.or_eq_false_iff.1 (Bool.eq_false_iff.2 hcond)).1).1).1 with ⟨h1, _⟩
      exact h1
    have := List.any_eq_false.1 hocc s hs
    intro hpe
    rw [position_eq_iff] at hpe
    simp [hpe.1, hpe.2] at this

theorem foodClear_moveSnake_aux (gs gs' : GameState) (cb : Option (GameState → Position))
    (r : ℚ) (h0 : 0 ≤ r) (h1 : r < 1)
    (hcb : ∀ f, cb = some f → ∀ s : GameState, wouldCollideWithSnake (f s) s.snake = false)
    (hmove : moveSnake gs cb r = some gs') (h : FoodClear gs) : FoodClear gs' := by
  by_cases hst : gs.gameStatus = .PLAYING
  · cases hsnake : gs.snake with
    | nil =>
        unfold moveSnake at hmove
        rw [if_neg (by simp [hst]), hsnake] at hmove
        exact (Option.some.inj hmove) ▸ h
    | cons head rest =>
        by_cases heat : (nextHead head).position = gs.food
        · -- consumption step
          have hfree : getAllValidPositions
              { gs with snake := nextHead head :: head :: rest } ≠ [] := by
            intro hnil
            unfold moveSnake at hmove
            rw [if_neg (by simp [hst]), hsnake] at hmove
            dsimp only at hmove
            have hcheck := checkFood_eaten { gs with snake := nextHead head :: head :: rest } r
              (by simpa using heat)
            rw [(generateOptimal_none_iff _ none r).2 hnil] at hcheck
            rw [hcheck] at hmove
            exact Option.noConfusion hmove
          cases cb with
          | none =>
              obtain ⟨gs'', hmove', hsn, hsc, hfd, _, _, _⟩ :=
                moveSnake_eaten_default gs head rest r hst hsnake heat h0 h1 hfree
              rw [hmove'] at hmove
              obtain rfl := Option.some.inj hmove
              intro s hs
              rw [hsn] at hs
              obtain ⟨s', hs', hps⟩ := mem_updateAges_position hs
              have hcol := (mem_getAllValidPositions.1 hfd).2
              have := (wouldCollide_eq_false_iff _ _).1 hcol s' hs'
              rw [hps] at this
              exact this
          | some f =>
              have hmove' := moveSnake_eaten_callback gs head rest f r hst hsnake heat hfree
              rw [hmove'] at hmove
              obtain rfl := Option.some.inj hmove
              intro s hs
              dsimp only at hs ⊢
              obtain ⟨s', hs', hps⟩ := mem_updateAges_position hs
              have hclear := hcb f rfl { gs with
                snake := nextHead head :: head :: rest,
                score := gs.score +
                  calculateScoreIncrease { gs with snake := nextHead head :: head :: rest } }
              have := (wouldCollide_eq_false_iff _ _).1 hclear s' hs'
              rw [hps] at this
              exact this
        · -- ordinary movement, food unchanged
          have hmove' := moveSnake_missed_eq gs head rest cb r hst hsnake heat
          rw [hmove'] at hmove
          obtain rfl := Option.some.inj hmove
          intro s hs
          dsimp only at hs ⊢
          obtain ⟨s', hs', hps⟩ := mem_updateAges_position hs
          have hs'' : s' ∈ nextHead head :: head :: rest := List.mem_of_mem_dropLast hs'
          rcases List.mem_cons.1 hs'' with heq | htail
          · rw [← hps, heq]
            exact heat
          · rw [← hps]
            have hmem : s' ∈ gs.snake := by rw [hsnake]; exact htail
            exact h s' hmem
  · rw [moveSnake_not_playing gs cb r hst] at hmove
    exact (Option.some.inj hmove) ▸ h

/-- C2 (amended): in every state reachable through initial construction,
the status transitions, `setSpeed`, `spawnFoodAt`, and `moveSnake` —
where any installed `onFoodConsumed` callback returns a position that is
never on the snake of the state it is given — the food position does not
equal the position of any snake segment. -/
theorem c2_food_invariant_safe (gs : GameState) (h : GameReachableSafe gs) :
    FoodClear gs := by
  induction h with
  | init foodPos hx0 hx hy0 hy hfree => exact foodClear_createInitialState foodPos hfree
  | start _ ih => exact foodClear_startGame _ ih
  | pause _ ih => exact foodClear_pauseGame _ ih
  | resume _ ih => exact foodClear_resumeGame _ ih
  | stop _ ih => exact foodClear_transitionTo _ _ ih
  | reset foodPos hx0 hx hy0 hy hfree _ ih => exact foodClear_resetGame _ foodPos hfree ih
  | speed v _ ih => exact ih
  | spawn p _ ih => exact foodClear_spawnFoodAt _ p ih
  | moveDefault r hr0 hr1 hmv _ ih =>
      exact foodClear_moveSnake_aux _ _ none r hr0 hr1 (by intro f hf; cases hf) hmv ih
  | moveCallback f r hr0 hr1 hcb hmv _ ih =>
      exact foodClear_moveSnake_aux _ _ (some f) r hr0 hr1
        (by intro f' hf'; cases Option.some.inj hf'; exact hcb) hmv ih

/-- Witness for C2's amended invariant at the freshly constructed state. -/
theorem c2_food_invariant_safe_witness : FoodClear (createInitialState ⟨0, 0⟩) :=
  c2_food_invariant_safe (createInitialState ⟨0, 0⟩)
    (.init ⟨0, 0⟩ (by decide) (by decide) (by decide) (by decide) (by decide))

/-- PLAYING state one cell away from eating, built by the public operations
(initial food drawn at (11, 10), then `startGame`). -/
def c2State : GameState := (startGame (createInitialState ⟨11, 10⟩)).2

/-- An installed `onFoodConsumed` callback (the field's type admits any
`(GameState) → Position` function) returning the cell (9, 10), which lies
on the snake's body; `moveSnake` stores it without validation. -/
def c2Callback : GameState → Position := fun _ => ⟨9, 10⟩

/-- C2 counterexample: the invariant "food never overlaps any snake
segment in every state reachable through the public operations, with or
without the `onFoodConsumed` callback installed" is false — after one
consuming `moveSnake` with an installed callback, the stored food (9, 10)
sits on a body segment, because line 184 of `GameStateManager.moveSnake`
assigns the callback's result unvalidated. -/
theorem c2_counterexample : ¬ (∀ gs : GameState, GameReachable gs → FoodClear gs) := by
  intro hclaim
  have hstatus : c2State.gameStatus = .PLAYING := by decide
  have hsnake : c2State.snake =
      ⟨⟨10, 10⟩, .RIGHT, 0⟩ :: [⟨⟨9, 10⟩, .RIGHT, 1⟩, ⟨⟨8, 10⟩, .RIGHT, 2⟩] := by decide
  have heat : (nextHead ⟨⟨10, 10⟩, .RIGHT, 0⟩).position = c2State.food := by decide
  have hfree : getAllValidPositions { c2State with
      snake := nextHead ⟨⟨10, 10⟩, .RIGHT, 0⟩ ::
        ⟨⟨10, 10⟩, .RIGHT, 0⟩ :: [⟨⟨9, 10⟩, .RIGHT, 1⟩, ⟨⟨8, 10⟩, .RIGHT, 2⟩] } ≠ [] := by
    intro hnil
    have := (getAllValidPositions_eq_nil_iff).1 hnil 0 (by decide) 0 (by decide)
    revert this
    decide
  have hmove := moveSnake_eaten_callback c2State ⟨⟨10, 10⟩, .RIGHT, 0⟩
    [⟨⟨9, 10⟩, .RIGHT, 1⟩, ⟨⟨8, 10⟩, .RIGHT, 2⟩] c2Callback 0 hstatus hsnake heat hfree
  have hreach0 : GameReachable (createInitialState ⟨11, 10⟩) :=
    .init ⟨11, 10⟩ (by decide) (by decide) (by decide) (by decide) (by decide)
  have hreach1 : GameReachable c2State := .start hreach0
  have hreach2 : GameReachable _ :=
    @GameReachable.move c2State _ (some c2Callback) 0 le_rfl (by norm_num) hmove hreach1
  have hclear := hclaim _ hreach2
  have hmem : (⟨⟨9, 10⟩, .RIGHT, 2⟩ : SnakeSegment) ∈
      ({ c2State with
        snake := updateAges 0 (nextHead ⟨⟨10, 10⟩, .RIGHT, 0⟩ ::
          ⟨⟨10, 10⟩, .RIGHT, 0⟩ :: [⟨⟨9, 10⟩, .RIGHT, 1⟩, ⟨⟨8, 10⟩, .RIGHT, 2⟩]),
        score := c2State.score + calculateScoreIncrease { c2State with
          snake := nextHead ⟨⟨10, 10⟩, .RIGHT, 0⟩ ::
            ⟨⟨10, 10⟩, .RIGHT, 0⟩ :: [⟨⟨9, 10⟩, .RIGHT, 1⟩, ⟨⟨8, 10⟩, .RIGHT, 2⟩] },
        food := c2Callback { c2State with
          snake := nextHead ⟨⟨10, 10⟩, .RIGHT, 0⟩ ::
            ⟨⟨10, 10⟩, .RIGHT, 0⟩ :: [⟨⟨9, 10⟩, .RIGHT, 1⟩, ⟨⟨8, 10⟩, .RIGHT, 2⟩],
          score := c2State.score + calculateScoreIncrease { c2State with
            snake := nextHead ⟨⟨10, 10⟩, .RIGHT, 0⟩ ::
              ⟨⟨10, 10⟩, .RIGHT, 0⟩ :: [⟨⟨9, 10⟩, .RIGHT, 1⟩, ⟨⟨8, 10⟩, .RIGHT, 2⟩] } } }).snake := by
    dsimp only
    decide
  have := hclear _ hmem
  exact this rfl

/-- C1 (amended): in a PLAYING state whose head, advanced one cell, lands
on the food, one `moveSnake()` call (completing normally) grows the snake
by exactly 1 and increases the score by exactly
`10 + ⌊(len+1)/10⌋·5 + ⌊(speed−1)·5⌋`; the increase is at least 5 for
every speed in [0.1, 5.0], and at least the base value 10 whenever
`speed ≥ 1` — but not for speeds below 1, where the floor-based speed
bonus is negative. -/
theorem c1_growth_and_score (gs : GameState) (head : SnakeSegment)
    (rest : List SnakeSegment) (r : ℚ)
    (hst : gs.gameStatus = .PLAYING) (hsnake : gs.snake = head :: rest)
    (heat : (nextHead head).position = gs.food)
    (hspeed : 1/10 ≤ gs.speed) (h0 : 0 ≤ r) (h1 : r < 1)
    (hfree : getAllValidPositions { gs with snake := nextHead head :: head :: rest } ≠ []) :
    ∃ gs', moveSnake gs none r = some gs' ∧
      gs'.snake.length = gs.snake.length + 1 ∧
      gs'.score - gs.score =
        10 + (((gs.snake.length + 1) / 10 : ℕ) : ℤ) * 5 + ⌊(gs.speed - 1) * 5⌋ ∧
      gs.score + 5 ≤ gs'.score ∧
      (1 ≤ gs.speed → gs.score + 10 ≤ gs'.score) := by
  obtain ⟨gs', hmv, hsn, hsc, _, _, _⟩ :=
    moveSnake_eaten_default gs head rest r hst hsnake heat h0 h1 hfree
  have hlen1 : (nextHead head :: head :: rest).length = gs.snake.length + 1 := by
    simp [hsnake]
  have hinc : calculateScoreIncrease { gs with snake := nextHead head :: head :: rest } =
      10 + (((gs.snake.length + 1) / 10 : ℕ) : ℤ) * 5 + ⌊(gs.speed - 1) * 5⌋ := by
    unfold calculateScoreIncrease
    dsimp only
    rw [hlen1]
  have hbonus5 : (-5 : ℤ) ≤ ⌊(gs.speed - 1) * 5⌋ := by
    rw [Int.le_floor]
    push_cast
    linarith
  have hlb : (0 : ℤ) ≤ (((gs.snake.length + 1) / 10 : ℕ) : ℤ) * 5 := by positivity
  refine ⟨gs', hmv, ?_, ?_, ?_, ?_⟩
  · rw [hsn, updateAges_length, hlen1]
  · rw [hsc, hinc]
    ring
  · rw [hsc, hinc]
    linarith
  · intro hsp
    have hbonus0 : (0 : ℤ) ≤ ⌊(gs.speed - 1) * 5⌋ := by
      rw [Int.le_floor]
      push_cast
      linarith
    rw [hsc, hinc]
    linarith

/-- Witness for C1's amended statement at the reachable state `c2State`
(speed 1, head one cell left of the food): the move consumes the food,
grows the snake to 4 and adds exactly 10 to the score. -/
theorem c1_growth_and_score_witness :
    ∃ gs', moveSnake c2State none 0 = some gs' ∧
      gs'.snake.length = c2State.snake.length + 1 ∧
      gs'.score - c2State.score =
        10 + (((c2State.snake.length + 1) / 10 : ℕ) : ℤ) * 5 + ⌊(c2State.speed - 1) * 5⌋ ∧
      c2State.score + 5 ≤ gs'.score ∧
      (1 ≤ c2State.speed → c2State.score + 10 ≤ gs'.score) :=
  c1_growth_and_score c2State ⟨⟨10, 10⟩, .RIGHT, 0⟩
    [⟨⟨9, 10⟩, .RIGHT, 1⟩, ⟨⟨8, 10⟩, .RIGHT, 2⟩] 0 (by decide) (by decide) (by decide)
    (by rw [show c2State.speed = 1 from rfl]; norm_num) le_rfl (by norm_num)
    (by
      intro hnil
      have := (getAllValidPositions_eq_nil_iff).1 hnil 0 (by decide) 0 (by decide)
      revert this
      decide)

/-- A reachable PLAYING state with speed 0.5 (initial food drawn at
(11, 10), `startGame`, then `setSpeed 0.5`), head one cell left of the
food. -/
def c1State : GameState := setSpeed (startGame (createInitialState ⟨11, 10⟩)).2 (1/2)

/-- C1 counterexample: at the reachable PLAYING state `c1State` — head
advanced lands on the food, speed 0.5 ∈ [0.1, 5.0] — one `moveSnake()`
grows the snake by exactly 1 but increases the score by only 7 < 10,
because the speed bonus `⌊(0.5−1)·5⌋ = −3` drags the increase below the
base value. -/
theorem c1_counterexample :
    GameReachable c1State ∧
    c1State.gameStatus = .PLAYING ∧
    (1/10 : ℚ) ≤ c1State.speed ∧ c1State.speed ≤ 5 ∧
    (nextHead (c1State.snake.headD defaultSegment)).position = c1State.food ∧
    (moveSnake c1State none 0).map (fun g => g.snake.length) =
      some (c1State.snake.length + 1) ∧
    (moveSnake c1State none 0).map (fun g => g.score) = some 7 ∧
    c1State.score = 0 ∧ ¬ ((10 : ℤ) ≤ 7 - 0) := by
  have hspeedval : c1State.speed = 1/2 := by
    rw [show c1State.speed = max (1/10) (min 5 (1/2)) from rfl]
    norm_num
  have hstatus : c1State.gameStatus = .PLAYING := by decide
  have hsnake : c1State.snake =
      ⟨⟨10, 10⟩, .RIGHT, 0⟩ :: [⟨⟨9, 10⟩, .RIGHT, 1⟩, ⟨⟨8, 10⟩, .RIGHT, 2⟩] := by decide
  have heat : (nextHead ⟨⟨10, 10⟩, .RIGHT, 0⟩).position = c1State.food := by decide
  have hfree : getAllValidPositions { c1State with
      snake := nextHead ⟨⟨10, 10⟩, .RIGHT, 0⟩ ::
        ⟨⟨10, 10⟩, .RIGHT, 0⟩ :: [⟨⟨9, 10⟩, .RIGHT, 1⟩, ⟨⟨8, 10⟩, .RIGHT, 2⟩] } ≠ [] := by
    intro hnil
    have := (getAllValidPositions_eq_nil_iff).1 hnil 0 (by decide) 0 (by decide)
    revert this
    decide
  obtain ⟨gs', hmv, hsn, hsc, _, _, _⟩ :=
    moveSnake_eaten_default c1State ⟨⟨10, 10⟩, .RIGHT, 0⟩
      [⟨⟨9, 10⟩, .RIGHT, 1⟩, ⟨⟨8, 10⟩, .RIGHT, 2⟩] 0 hstatus hsnake heat le_rfl
      (by norm_num) hfree
  have hinc : calculateScoreIncrease { c1State with
      snake := nextHead ⟨⟨10, 10⟩, .RIGHT, 0⟩ ::
        ⟨⟨10, 10⟩, .RIGHT, 0⟩ :: [⟨⟨9, 10⟩, .RIGHT, 1⟩, ⟨⟨8, 10⟩, .RIGHT, 2⟩] } = 7 := by
    unfold calculateScoreIncrease
    dsimp only
    rw [show ({ c1State with
      snake := nextHead ⟨⟨10, 10⟩, .RIGHT, 0⟩ ::
        ⟨⟨10, 10⟩, .RIGHT, 0⟩ :: [⟨⟨9, 10⟩, .RIGHT, 1⟩, ⟨⟨8, 10⟩, .RIGHT, 2⟩] } : GameState).speed
      = c1State.speed from rfl, hspeedval]
    norm_num
  refine ⟨?_, hstatus, ?_, ?_, ?_, ?_, ?_, by decide, by decide⟩
  · exact .speed (1/2) (.start (.init ⟨11, 10⟩ (by decide) (by decide) (by decide)
      (by decide) (by decide)))
  · rw [hspeedval]; norm_num
  · rw [hspeedval]; norm_num
  · rw [hsnake]
    exact heat
  · rw [hmv]
    simp only [Option.map_some']
    rw [hsn, updateAges_length]
    rw [hsnake]
    rfl
  · rw [hmv]
    simp only [Option.map_some']
    rw [hsc, hinc]
    norm_num
    decide

/-- C6: `generateOptimalFoodPosition` signals its distinct
no-valid-position error (modelled as `none`) exactly when every grid cell
is occupied by a snake segment; otherwise — with no difficulty given or
with any of the easy/medium/hard bands — it returns a position inside the
grid bounds that does not equal any snake segment's position. -/
theorem c6_generate_food (gs : GameState) (pref : Option Difficulty) (r : ℚ)
    (h0 : 0 ≤ r) (h1 : r < 1) :
    (generateOptimalFoodPosition gs pref r = none ↔
      ∀ x < gs.gridSize.width, ∀ y < gs.gridSize.height,
        wouldCollideWithSnake ⟨(x : ℤ), (y : ℤ)⟩ gs.snake = true) ∧
    (∀ p, generateOptimalFoodPosition gs pref r = some p →
      (0 ≤ p.x ∧ p.x < (gs.gridSize.width : ℤ) ∧
       0 ≤ p.y ∧ p.y < (gs.gridSize.height : ℤ)) ∧
      wouldCollideWithSnake p gs.snake = false) := by
  constructor
  · rw [generateOptimal_none_iff]
    exact getAllValidPositions_eq_nil_iff
  · intro p hp
    have hmem := generateOptimal_some_mem h0 h1 hp
    obtain ⟨⟨x, hx, y, hy, rfl⟩, hc⟩ := mem_getAllValidPositions.1 hmem
    refine ⟨⟨?_, ?_, ?_, ?_⟩, hc⟩
    · exact Int.ofNat_nonneg x
    · show (x : ℤ) < (gs.gridSize.width : ℤ)
      exact_mod_cast hx
    · exact Int.ofNat_nonneg y
    · show (y : ℤ) < (gs.gridSize.height : ℤ)
      exact_mod_cast hy

/-- A 2×2 board fully occupied by a 4-segment snake (the spec's degenerate
test case). -/
def c6FullState : GameState :=
  { snake := [⟨⟨0, 0⟩, .RIGHT, 0⟩, ⟨⟨1, 0⟩, .RIGHT, 1⟩, ⟨⟨1, 1⟩, .RIGHT, 2⟩,
      ⟨⟨0, 1⟩, .RIGHT, 3⟩]
    food := ⟨0, 0⟩
    score := 0
    gameStatus := .PLAYING
    speed := 1
    gridSize := ⟨2, 2⟩
    gameTime := 0 }

/-- Witness for C6 at the fully occupied 2×2 board: the easy-difficulty
call signals the no-valid-position error. -/
theorem c6_generate_food_witness :
    generateOptimalFoodPosition c6FullState (some .easy) 0 = none :=
  (c6_generate_food c6FullState (some .easy) 0 le_rfl (by norm_num)).1.mpr (by decide)

theorem profiler_reachable_inv {p : Profiler} (h : ProfilerReachable p) :
    p.inputLatency = p.reactionTimes ∧ 0 ≤ p.errorFrequency ∧ p.errorFrequency ≤ 1 ∧
    (p.collisionHistory = [] → p.errorFrequency = 0 ∧ p.collisionNearMisses = 0) := by
  induction h with
  | init now =>
      exact ⟨rfl, le_refl _, by norm_num [initialProfiler], fun _ => ⟨rfl, rfl⟩⟩
  | input playerInput gameState now _ ih =>
      obtain ⟨hil, herr0, herr1, hcoll⟩ := ih
      unfold recordInput
      dsimp only
      rw [hil]
      refine ⟨by split <;> rfl, herr0, herr1, fun hc => hcoll hc⟩
  | collision collisionType position gameState now _ ih =>
      obtain ⟨hil, herr0, herr1, hcoll⟩ := ih
      unfold recordCollision
      dsimp only
      refine ⟨hil, ?_, ?_, ?_⟩
      · unfold calculateErrorFrequency
        dsimp only
        exact le_min (by norm_num) (by positivity)
      · exact min_le_left _ _
      · intro hc
        exact absurd hc (List.append_ne_nil_of_right_ne_nil _ (by simp))
  | food gameState timeTaken now _ ih =>
      obtain ⟨hil, herr0, herr1, hcoll⟩ := ih
      unfold recordFoodCollection
      dsimp only
      exact ⟨hil, herr0, herr1, hcoll⟩
  | reset now _ =>
      exact ⟨rfl, le_refl _, by norm_num [resetProfiler, initialProfiler], fun _ => ⟨rfl, rfl⟩⟩

/-- C7: `calculateStressLevel()` lies in [0, 1] for every reachable
profiler state, and returns exactly 0 when the history is empty (no
recorded inputs and no recorded collisions). -/
theorem c7_stress_bounds :
    (∀ p : Profiler, ProfilerReachable p →
      0 ≤ calculateStressLevel p ∧ calculateStressLevel p ≤ 1) ∧
    (∀ p : Profiler, ProfilerReachable p → p.reactionTimes = [] →
      p.collisionHistory = [] → calculateStressLevel p = 0) := by
  constructor
  · intro p hp
    obtain ⟨hil, herr0, herr1, hcoll⟩ := profiler_reachable_inv hp
    have ha : 0 ≤ (stressReactionFactor p).1 := by
      unfold stressReactionFactor
      split_ifs <;> norm_num
    have hb : 0 ≤ (stressFrequencyFactor p).1 := by
      unfold stressFrequencyFactor
      dsimp only
      split_ifs <;> norm_num
    have hnm : 0 ≤ (if 3 < p.collisionNearMisses then (3 : ℚ)/10 else 0) := by
      split_ifs <;> norm_num
    have herrf : 0 ≤ p.errorFrequency * (1/2) :=
      mul_nonneg herr0 (by norm_num)
    unfold calculateStressLevel
    dsimp only
    rw [if_pos (by omega)]
    constructor
    · exact le_min (by norm_num) (div_nonneg (by linarith) (by positivity))
    · exact min_le_left _ _
  · intro p hp hrt hch
    obtain ⟨hil, herr0, herr1, hcoll⟩ := profiler_reachable_inv hp
    obtain ⟨herr, hnm⟩ := hcoll hch
    have h1 : stressReactionFactor p = (0, 0) := by
      unfold stressReactionFactor
      rw [hrt]
      norm_num
    have h2 : stressFrequencyFactor p = (0, 0) := by
      unfold stressFrequencyFactor
      dsimp only
      rw [hil, hrt]
      norm_num [lastN]
    unfold calculateStressLevel
    dsimp only
    rw [h1, h2, herr, hnm]
    norm_num

/-- Witness for C7 at the freshly constructed profiler: stress is within
[0, 1] and exactly 0. -/
theorem c7_stress_bounds_witness :
    (0 ≤ calculateStressLevel (initialProfiler 0) ∧
      calculateStressLevel (initialProfiler 0) ≤ 1) ∧
    calculateStressLevel (initialProfiler 0) = 0 :=
  ⟨c7_stress_bounds.1 (initialProfiler 0) (.init 0),
   c7_stress_bounds.2 (initialProfiler 0) (.init 0) rfl rfl⟩

theorem recordInput_errorFrequency (p : Profiler) (playerInput : PlayerInput)
    (gameState : GameState) (now : ℚ) :
    (recordInput p playerInput gameState now).errorFrequency = p.errorFrequency := rfl

theorem recordInput_efficiency (p : Profiler) (playerInput : PlayerInput)
    (gameState : GameState) (now : ℚ) :
    (recordInput p playerInput gameState now).foodCollectionEfficiency =
      p.foodCollectionEfficiency := rfl

theorem recordInput_skill (p : Profiler) (playerInput : PlayerInput)
    (gameState : GameState) (now : ℚ) :
    (recordInput p playerInput gameState now).skillProgression =
      ((gameState.score : ℚ) / 1000) * (3/10) +
      ((gameState.snake.length : ℚ) / 20) * (1/4) +
      min 1 (gameState.gameTime / 300000) * (3/20) +
      p.foodCollectionEfficiency * (1/5) +
      (1 - p.errorFrequency) * (1/10) := rfl

theorem applyInputs_inv (inputs : List (PlayerInput × GameState × ℚ)) (p : Profiler)
    (hp : p.errorFrequency = 0 ∧ p.foodCollectionEfficiency = 0 ∧
      0 ≤ p.skillProgression ∧ p.skillProgression ≤ 1)
    (hgs : ∀ e ∈ inputs, 0 ≤ e.2.1.score ∧ e.2.1.score ≤ 1000 ∧
      e.2.1.snake.length ≤ 20 ∧ 0 ≤ e.2.1.gameTime) :
    (applyInputs p inputs).errorFrequency = 0 ∧
    (applyInputs p inputs).foodCollectionEfficiency = 0 ∧
    0 ≤ (applyInputs p inputs).skillProgression ∧
    (applyInputs p inputs).skillProgression ≤ 1 := by
  induction inputs generalizing p with
  | nil => exact hp
  | cons e rest ih =>
      rcases e with ⟨i, g, n⟩
      obtain ⟨hb1, hb2, hb3, hb4⟩ := hgs (i, g, n) (List.mem_cons_self _ _)
      obtain ⟨he, hf, _, _⟩ := hp
      have hscore0 : (0 : ℚ) ≤ (g.score : ℚ) := by exact_mod_cast hb1
      have hscore1 : (g.score : ℚ) ≤ 1000 := by exact_mod_cast hb2
      have hlen0 : (0 : ℚ) ≤ (g.snake.length : ℚ) := by positivity
      have hlen1 : (g.snake.length : ℚ) ≤ 20 := by exact_mod_cast hb3
      have htime0 : (0 : ℚ) ≤ min 1 (g.gameTime / 300000) :=
        le_min (by norm_num) (by positivity)
      have htime1 : min 1 (g.gameTime / 300000) ≤ 1 := min_le_left _ _
      apply ih
      · refine ⟨?_, ?_, ?_, ?_⟩
        · rw [recordInput_errorFrequency, he]
        · rw [recordInput_efficiency, hf]
        · rw [recordInput_skill, he, hf]
          nlinarith
        · rw [recordInput_skill, he, hf]
          nlinarith
      · intro e he'
        exact hgs e (List.mem_cons_of_mem _ he')

/-- C9 (amended): after every sequence of `recordInput` calls — against
game states with score in [0, 1000], snake length at most 20 and
nonnegative game time — the profiler's `skillProgression` lies in [0, 1].
(For arbitrary game states the unclamped weighted blend can leave the
range.) -/
theorem c9_skill_bounds (t0 : ℚ) (inputs : List (PlayerInput × GameState × ℚ))
    (hgs : ∀ e ∈ inputs, 0 ≤ e.2.1.score ∧ e.2.1.score ≤ 1000 ∧
      e.2.1.snake.length ≤ 20 ∧ 0 ≤ e.2.1.gameTime) :
    0 ≤ (applyInputs (initialProfiler t0) inputs).skillProgression ∧
    (applyInputs (initialProfiler t0) inputs).skillProgression ≤ 1 := by
  have := applyInputs_inv inputs (initialProfiler t0)
    ⟨rfl, rfl, le_refl 0, by norm_num [initialProfiler]⟩ hgs
  exact ⟨this.2.2.1, this.2.2.2⟩

/-- Witness for C9's amended statement: one recorded input against the
initial 20×20 state keeps `skillProgression` in [0, 1]. -/
theorem c9_skill_bounds_witness :
    0 ≤ (applyInputs (initialProfiler 0)
      [(⟨.UP, 0, 100⟩, createInitialState ⟨0, 0⟩, 0)]).skillProgression ∧
    (applyInputs (initialProfiler 0)
      [(⟨.UP, 0, 100⟩, createInitialState ⟨0, 0⟩, 0)]).skillProgression ≤ 1 :=
  c9_skill_bounds 0 [(⟨.UP, 0, 100⟩, createInitialState ⟨0, 0⟩, 0)]
    (by
      intro e he
      simp only [List.mem_singleton] at he
      subst he
      refine ⟨by decide, by decide, by decide, ?_⟩
      norm_num [createInitialState])

/-- A `GameState` with a large score, fed to the profiler. -/
def c9State : GameState :=
  { snake := [⟨⟨10, 10⟩, .UP, 0⟩]
    food := ⟨0, 0⟩
    score := 5000
    gameStatus := .PLAYING
    speed := 1
    gridSize := ⟨20, 20⟩
    gameTime := 0 }

/-- C9 counterexample: one `recordInput` against a game state with score
5000 drives `skillProgression` to 129/80 > 1 — `updateSkillProgression`
never clamps its weighted blend. -/
theorem c9_counterexample :
    ¬ (∀ (t0 : ℚ) (inputs : List (PlayerInput × GameState × ℚ)),
        0 ≤ (applyInputs (initialProfiler t0) inputs).skillProgression ∧
        (applyInputs (initialProfiler t0) inputs).skillProgression ≤ 1) := by
  intro hclaim
  have hle := (hclaim 0 [(⟨.UP, 0, 100⟩, c9State, 0)]).2
  have hval : (applyInputs (initialProfiler 0)
      [(⟨.UP, 0, 100⟩, c9State, 0)]).skillProgression = 129/80 := by
    rw [show applyInputs (initialProfiler 0) [(⟨.UP, 0, 100⟩, c9State, 0)] =
        recordInput (initialProfiler 0) ⟨.UP, 0, 100⟩ c9State 0 from rfl]
    rw [recordInput_skill]
    norm_num [c9State, initialProfiler, min_def]
  rw [hval] at hle
  norm_num at hle

theorem tail_append_singleton {α : Type} (l : List α) (a : α) (h : l ≠ []) :
    (l ++ [a]).tail = l.tail ++ [a] := by
  cases l with
  | nil => exact absurd rfl h
  | cons b t => rfl

theorem logDecision_recoveryModeActive (d : DirectorState) (prof : Profiler) (now : ℚ)
    (dec reas : String) :
    (logDecision d prof now dec reas).recoveryModeActive = d.recoveryModeActive := rfl

theorem logDecision_getLast (d : DirectorState) (prof : Profiler) (now : ℚ)
    (dec reas : String) :
    ((logDecision d prof now dec reas).decisionHistory.getLast?).map
        (fun e => (e.timestamp, e.type)) = some (now, categorizeDecision dec) := by
  unfold logDecision
  dsimp only
  split
  · rename_i hlong
    have hne : d.decisionHistory ≠ [] := by
      intro hnil
      rw [hnil] at hlong
      simp [MAX_DECISION_HISTORY] at hlong
    rw [tail_append_singleton _ _ hne, List.getLast?_concat]
    rfl
  · rw [List.getLast?_concat]
    rfl

theorem logDecision_length (d : DirectorState) (prof : Profiler) (now : ℚ)
    (dec reas : String) :
    (logDecision d prof now dec reas).decisionHistory.length =
      (if MAX_DECISION_HISTORY < d.decisionHistory.length + 1 then
        d.decisionHistory.length else d.decisionHistory.length + 1) := by
  unfold logDecision
  dsimp only
  split
  · rename_i hlong
    have hne : d.decisionHistory ≠ [] := by
      intro hnil
      rw [hnil] at hlong
      simp [MAX_DECISION_HISTORY] at hlong
    rw [tail_append_singleton _ _ hne]
    simp only [List.length_append, List.length_singleton, List.length_tail]
    rw [if_pos (by simpa using hlong)]
    have : 1 ≤ d.decisionHistory.length := List.length_pos.2 hne
    omega
  · rename_i hshort
    rw [if_neg (by simpa using hshort)]
    simp

/-- C8: on a director analysis pass — whose behavior analysis carries
`risk = assessRiskLevel(gameState)` and
`profile.stressLevel = calculateStressLevel()` — recovery mode is active
after `evaluateRecoveryMode` exactly when risk exceeds the configured
recovery threshold (default 0.6), or stress exceeds 0.7, or the
consecutive-poor-performance streak is at least 3; every activation and
every deactivation appends a RECOVERY_TRIGGER decision stamped with the
pass time to the bounded log, and a pass without a transition leaves the
director state unchanged. -/
theorem c8_recovery_gate (d : DirectorState) (prof : Profiler) (gs : GameState) (now : ℚ) :
    ((evaluateRecoveryMode d prof now
        ⟨assessRiskLevel gs prof, ⟨calculateStressLevel prof⟩⟩).recoveryModeActive = true ↔
      (d.configuration.recoveryThreshold < assessRiskLevel gs prof ∨
        (7/10 : ℚ) < calculateStressLevel prof ∨
        3 ≤ d.consecutivePoorPerformance)) ∧
    ((evaluateRecoveryMode d prof now
        ⟨assessRiskLevel gs prof, ⟨calculateStressLevel prof⟩⟩).recoveryModeActive ≠
          d.recoveryModeActive →
      (((evaluateRecoveryMode d prof now
          ⟨assessRiskLevel gs prof, ⟨calculateStressLevel prof⟩⟩).decisionHistory.getLast?).map
            (fun e => (e.timestamp, e.type)) =
          some (now, DecisionType.RECOVERY_TRIGGER) ∧
        (evaluateRecoveryMode d prof now
          ⟨assessRiskLevel gs prof, ⟨calculateStressLevel prof⟩⟩).decisionHistory.length =
          (if MAX_DECISION_HISTORY < d.decisionHistory.length + 1 then
            d.decisionHistory.length else d.decisionHistory.length + 1))) ∧
    ((evaluateRecoveryMode d prof now
        ⟨assessRiskLevel gs prof, ⟨calculateStressLevel prof⟩⟩).recoveryModeActive =
          d.recoveryModeActive →
      evaluateRecoveryMode d prof now
        ⟨assessRiskLevel gs prof, ⟨calculateStressLevel prof⟩⟩ = d) := by
  unfold evaluateRecoveryMode
  dsimp only
  by_cases hs : (d.configuration.recoveryThreshold < assessRiskLevel gs prof ∨
      (7/10 : ℚ) < calculateStressLevel prof ∨ 3 ≤ d.consecutivePoorPerformance)
  · have hsb : (decide (d.configuration.recoveryThreshold < assessRiskLevel gs prof) ||
        decide ((7/10 : ℚ) < calculateStressLevel prof) ||
        decide (3 ≤ d.consecutivePoorPerformance)) = true := by
      simpa [Bool.or_eq_true, decide_eq_true_eq, or_assoc] using hs
    rw [hsb]
    cases hact : d.recoveryModeActive with
    | false =>
        simp only [Bool.not_false, Bool.and_true, ite_true]
        refine ⟨iff_of_true rfl hs, ?_, ?_⟩
        · intro _
          constructor
          · rw [logDecision_getLast]
            rfl
          · rw [logDecision_length]
        · intro hsame
          rw [logDecision_recoveryModeActive] at hsame
          exact absurd hsame (by simp)
    | true =>
        simp only [Bool.not_true, Bool.and_false, Bool.false_eq_true, ite_false,
          Bool.not_false, Bool.true_and]
        refine ⟨iff_of_true hact hs, ?_, ?_⟩
        · intro hdiff
          exact absurd hact hdiff
        · intro _
          rfl
  · have h1 : ¬(d.configuration.recoveryThreshold < assessRiskLevel gs prof) :=
      fun h => hs (Or.inl h)
    have h2 : ¬((7/10 : ℚ) < calculateStressLevel prof) := fun h => hs (Or.inr (Or.inl h))
    have h3 : ¬(3 ≤ d.consecutivePoorPerformance) := fun h => hs (Or.inr (Or.inr h))
    have hsb : (decide (d.configuration.recoveryThreshold < assessRiskLevel gs prof) ||
        decide ((7/10 : ℚ) < calculateStressLevel prof) ||
        decide (3 ≤ d.consecutivePoorPerformance)) = false := by
      simp [h1, h2, h3]
    rw [hsb]
    cases hact : d.recoveryModeActive with
    | true =>
        simp only [Bool.false_and, Bool.false_eq_true, ite_false, Bool.not_false,
          Bool.true_and, ite_true]
        refine ⟨iff_of_false (by simp [logDecision_recoveryModeActive]) hs, ?_, ?_⟩
        · intro _
          constructor
          · rw [logDecision_getLast]
            rfl
          · rw [logDecision_length]
        · intro hsame
          simp [logDecision_recoveryModeActive] at hsame
    | false =>
        simp only [Bool.false_and, Bool.false_eq_true, ite_false, Bool.not_false,
          Bool.and_false]
        refine ⟨iff_of_false (by rw [hact]; simp) hs, ?_, ?_⟩
        · intro hdiff
          exact absurd hact hdiff
        · intro _
          trivial

/-- Director state with a poor-performance streak of 3 (recovery mode
off, empty log). -/
def c8Director : DirectorState :=
  { configuration := defaultAIConfiguration
    decisionHistory := []
    currentDifficultyLevel := 1
    recoveryModeActive := false
    lastSpeedAdjustment := 0
    consecutiveGoodPerformance := 0
    consecutivePoorPerformance := 3
    lastAnalysisTime := 0 }

/-- Witness for C8: with a poor streak of 3 the pass activates recovery
mode and appends one RECOVERY_TRIGGER decision to the empty log. -/
theorem c8_recovery_gate_witness :
    ((evaluateRecoveryMode c8Director (initialProfiler 0) 0
        ⟨assessRiskLevel (createInitialState ⟨0, 0⟩) (initialProfiler 0),
          ⟨calculateStressLevel (initialProfiler 0)⟩⟩).decisionHistory.getLast?).map
        (fun e => (e.timestamp, e.type)) = some (0, DecisionType.RECOVERY_TRIGGER) ∧
    (evaluateRecoveryMode c8Director (initialProfiler 0) 0
        ⟨assessRiskLevel (createInitialState ⟨0, 0⟩) (initialProfiler 0),
          ⟨calculateStressLevel (initialProfiler 0)⟩⟩).decisionHistory.length = 1 := by
  have hgate := c8_recovery_gate c8Director (initialProfiler 0) (createInitialState ⟨0, 0⟩) 0
  have hactive : (evaluateRecoveryMode c8Director (initialProfiler 0) 0
      ⟨assessRiskLevel (createInitialState ⟨0, 0⟩) (initialProfiler 0),
        ⟨calculateStressLevel (initialProfiler 0)⟩⟩).recoveryModeActive = true :=
    hgate.1.mpr (Or.inr (Or.inr (by norm_num [c8Director])))
  have hdiff : (evaluateRecoveryMode c8Director (initialProfiler 0) 0
      ⟨assessRiskLevel (createInitialState ⟨0, 0⟩) (initialProfiler 0),
        ⟨calculateStressLevel (initialProfiler 0)⟩⟩).recoveryModeActive ≠
      c8Director.recoveryModeActive := by
    rw [hactive]
    simp [c8Director]
  obtain ⟨hlast, hlen⟩ := hgate.2.1 hdiff
  refine ⟨hlast, ?_⟩
  rw [hlen]
  rfl

/-- C10: `getGameState()` performs a shallow spread, so the snapshot holds
the same snake-array reference as the manager; writing a segment's
position through the snapshot (here `snapshot.snake[0].position =
(0, 0)`) changes the snake the manager itself observes — the returned
value is not a mutation-isolated copy. -/
theorem c10_shallow_copy_aliasing :
    (getGameStateObj managerObj0).snakeRef = managerObj0.snakeRef ∧
    (materializeSnake managerObj0
        (writeSegmentPosition sharedHeap0 (getGameStateObj managerObj0).snakeRef 0
          ⟨0, 0⟩)).map (fun s => s.position) ≠
      (materializeSnake managerObj0 sharedHeap0).map (fun s => s.position) := by
  constructor
  · rfl
  · decide
